import Mathlib

set_option maxHeartbeats 2000000
set_option maxRecDepth 8000

/-
Shallow embedding of the ability-resolution core of this repository
(ability.cc: the static action registry, cost model, availability
resolver, failure-rate calculator, action executor and cost settlement).

Conventions used throughout:
* C++ `int` is embedded as `Int`; C++ `unsigned int` as `Nat`.
* C++ integer division truncates toward zero, which is `Int.tdiv`.
* External collaborators that the reviewed code merely queries (the RNG
  surface, the actor-state accessor surface `you.*`, option tables and
  small inventory keymap helpers) are modelled as fields of a `You`
  record or, where the spec fixes their meaning, as definitions whose
  doc comment starts with `Modelled from the spec:`.
* Debug-build `ASSERT`s are not embedded; where a claim depends on an
  assert precondition it appears as a theorem hypothesis.
-/

/- Behavioral flag bits of an action definition (`enum class abflag`). -/
namespace abflag

def NONE : Nat := 0x00000000

def BREATH : Nat := 0x00000001

def DELAY : Nat := 0x00000002

def PAIN : Nat := 0x00000004

def PIETY : Nat := 0x00000008

def EXHAUSTION : Nat := 0x00000010

def INSTANT : Nat := 0x00000020

def PERMANENT_HP : Nat := 0x00000040

def PERMANENT_MP : Nat := 0x00000080

def CONF_OK : Nat := 0x00000100

def FRUIT : Nat := 0x00000200

def VARIABLE_FRUIT : Nat := 0x00000400

def VARIABLE_MP : Nat := 0x00000800

def SKILL_DRAIN : Nat := 0x00080000

def GOLD : Nat := 0x00100000

def SACRIFICE : Nat := 0x00200000

def HOSTILE : Nat := 0x00400000

end abflag

/-- `testbits(flags, test)`: all bits of `test` are set in `flags`. -/
def testbits (flags test : Nat) : Bool := flags &&& test == test

/-- Discrete cost: `struct generic_cost \x7b int base, add, rolls; ... \x7d`. -/
structure generic_cost where
  base : Int
  add : Int
  rolls : Int
deriving DecidableEq

/-- The one-argument constructor `generic_cost(int num)`:
`base = num`, `add = num == 0 ? 0 : (num + 1) / 2 + 1`, `rolls = 1`. -/
def generic_cost.ofInt (num : Int) : generic_cost :=
  ⟨num, if num = 0 then 0 else Int.tdiv (num + 1) 2 + 1, 1⟩

/-- `generic_cost::fixed(fixed)`. -/
def generic_cost.fixed (fixed : Int) : generic_cost := ⟨fixed, 0, 1⟩

/-- `generic_cost::range(low, high, _rolls = 1)`. -/
def generic_cost.range (low high : Int) (rolls : Int := 1) : generic_cost :=
  ⟨low, high - low + 1, rolls⟩

/-- `operator bool`: `base > 0 || add > 0`. -/
def generic_cost.nonzero (c : generic_cost) : Bool := c.base > 0 || c.add > 0

/-- Scaling cost: `struct scaling_cost \x7b int value; ... \x7d`, built from a
per-mille value by the implicit constructor. -/
structure scaling_cost where
  value : Int
deriving DecidableEq

/-- The implicit constructor `scaling_cost(int permille)`. -/
def scaling_cost.ofInt (permille : Int) : scaling_cost := ⟨permille⟩

/-- `scaling_cost::fixed(fixed)`: stores the negated magnitude. -/
def scaling_cost.fixed (fixed : Int) : scaling_cost := ⟨-fixed⟩

/-- `scaling_cost::cost(max)`:
`return (value < 0) ? (-value) : ((value * max + 500) / 1000);`. -/
def scaling_cost.cost (c : scaling_cost) (max : Int) : Int :=
  if c.value < 0 then -c.value else Int.tdiv (c.value * max + 500) 1000

/-- `operator bool`: `value != 0`. -/
def scaling_cost.nonzero (c : scaling_cost) : Bool := c.value != 0

/-- Modelled from the spec: the averaging-roll RNG primitive
`draw_averaged(max, rolls)` (`random2avg` in the source, implemented in
the external RNG module). Per the spec it produces an average-biased
value in `[0, max)` from `rolls` uniform draws over `[0, max)`.
The draw list stands for the RNG stream consumed by the call; theorems
assume each element lies in `[0, max)` and that `rolls` draws are taken.
The result is the truncating average of the draws. -/
def random2avg (rolls : Int) (draws : List Int) : Int :=
  Int.tdiv draws.sum rolls

/-- `generic_cost::cost()`:
`return base + (add > 0 ? random2avg(add, rolls) : 0);`
with the RNG stream passed explicitly. -/
def generic_cost.cost (c : generic_cost) (draws : List Int) : Int :=
  c.base + (if c.add > 0 then random2avg c.rolls draws else 0)

/-- Action identities (`enum ability_type`). The enum header is not
among the reviewed sources; its named members are exactly those used by
the reviewed modules. `ABIL_UNKNOWN n` is modelled from the spec: the
identity space admits unregistered values (stale persisted slot-table
entries, spec 7a), which registry lookup must tolerate; two such stale
values are modelled as the argument-free members `ABIL_UNKNOWN_A` and
`ABIL_UNKNOWN_B`, keeping the type a plain enumeration. -/
inductive ability_type where
  | ABIL_NON_ABILITY
  | ABIL_SPIT_POISON
  | ABIL_BLINK
  | ABIL_BREATHE_FIRE
  | ABIL_BREATHE_FROST
  | ABIL_BREATHE_POISON
  | ABIL_BREATHE_MEPHITIC
  | ABIL_BREATHE_LIGHTNING
  | ABIL_BREATHE_POWER
  | ABIL_BREATHE_STICKY_FLAME
  | ABIL_BREATHE_STEAM
  | ABIL_TRAN_BAT
  | ABIL_SPIT_ACID
  | ABIL_FLY
  | ABIL_STOP_FLYING
  | ABIL_HELLFIRE
  | ABIL_DELAYED_FIREBALL
  | ABIL_STOP_SINGING
  | ABIL_MUMMY_RESTORATION
  | ABIL_DIG
  | ABIL_SHAFT_SELF
  | ABIL_EVOKE_BLINK
  | ABIL_RECHARGING
  | ABIL_EVOKE_BERSERK
  | ABIL_EVOKE_TURN_INVISIBLE
  | ABIL_EVOKE_TURN_VISIBLE
  | ABIL_EVOKE_FLIGHT
  | ABIL_EVOKE_FOG
  | ABIL_END_TRANSFORMATION
  | ABIL_ZIN_RECITE
  | ABIL_ZIN_VITALISATION
  | ABIL_ZIN_IMPRISON
  | ABIL_ZIN_SANCTUARY
  | ABIL_ZIN_CURE_ALL_MUTATIONS
  | ABIL_ZIN_DONATE_GOLD
  | ABIL_TSO_DIVINE_SHIELD
  | ABIL_TSO_CLEANSING_FLAME
  | ABIL_TSO_SUMMON_DIVINE_WARRIOR
  | ABIL_TSO_BLESS_WEAPON
  | ABIL_KIKU_RECEIVE_CORPSES
  | ABIL_KIKU_TORMENT
  | ABIL_KIKU_GIFT_NECRONOMICON
  | ABIL_KIKU_BLESS_WEAPON
  | ABIL_YRED_INJURY_MIRROR
  | ABIL_YRED_ANIMATE_REMAINS
  | ABIL_YRED_RECALL_UNDEAD_SLAVES
  | ABIL_YRED_ANIMATE_DEAD
  | ABIL_YRED_DRAIN_LIFE
  | ABIL_YRED_ENSLAVE_SOUL
  | ABIL_OKAWARU_HEROISM
  | ABIL_OKAWARU_FINESSE
  | ABIL_MAKHLEB_MINOR_DESTRUCTION
  | ABIL_MAKHLEB_LESSER_SERVANT_OF_MAKHLEB
  | ABIL_MAKHLEB_MAJOR_DESTRUCTION
  | ABIL_MAKHLEB_GREATER_SERVANT_OF_MAKHLEB
  | ABIL_SIF_MUNA_CHANNEL_ENERGY
  | ABIL_SIF_MUNA_FORGET_SPELL
  | ABIL_TROG_BURN_SPELLBOOKS
  | ABIL_TROG_BERSERK
  | ABIL_TROG_REGEN_MR
  | ABIL_TROG_BROTHERS_IN_ARMS
  | ABIL_ELYVILON_LIFESAVING
  | ABIL_ELYVILON_LESSER_HEALING
  | ABIL_ELYVILON_HEAL_OTHER
  | ABIL_ELYVILON_PURIFICATION
  | ABIL_ELYVILON_GREATER_HEALING
  | ABIL_ELYVILON_DIVINE_VIGOUR
  | ABIL_LUGONU_ABYSS_EXIT
  | ABIL_LUGONU_BEND_SPACE
  | ABIL_LUGONU_BANISH
  | ABIL_LUGONU_CORRUPT
  | ABIL_LUGONU_ABYSS_ENTER
  | ABIL_LUGONU_BLESS_WEAPON
  | ABIL_NEMELEX_TRIPLE_DRAW
  | ABIL_NEMELEX_DEAL_FOUR
  | ABIL_NEMELEX_STACK_FIVE
  | ABIL_BEOGH_SMITING
  | ABIL_BEOGH_RECALL_ORCISH_FOLLOWERS
  | ABIL_BEOGH_GIFT_ITEM
  | ABIL_JIYVA_CALL_JELLY
  | ABIL_JIYVA_JELLY_PARALYSE
  | ABIL_JIYVA_SLIMIFY
  | ABIL_JIYVA_CURE_BAD_MUTATION
  | ABIL_FEDHAS_EVOLUTION
  | ABIL_FEDHAS_SUNLIGHT
  | ABIL_FEDHAS_PLANT_RING
  | ABIL_FEDHAS_SPAWN_SPORES
  | ABIL_FEDHAS_RAIN
  | ABIL_CHEIBRIADOS_TIME_BEND
  | ABIL_CHEIBRIADOS_DISTORTION
  | ABIL_CHEIBRIADOS_SLOUCH
  | ABIL_CHEIBRIADOS_TIME_STEP
  | ABIL_ASHENZARI_SCRYING
  | ABIL_ASHENZARI_TRANSFER_KNOWLEDGE
  | ABIL_ASHENZARI_END_TRANSFER
  | ABIL_DITHMENOS_SHADOW_STEP
  | ABIL_DITHMENOS_SHADOW_FORM
  | ABIL_RU_DRAW_OUT_POWER
  | ABIL_RU_POWER_LEAP
  | ABIL_RU_APOCALYPSE
  | ABIL_RU_SACRIFICE_PURITY
  | ABIL_RU_SACRIFICE_WORDS
  | ABIL_RU_SACRIFICE_DRINK
  | ABIL_RU_SACRIFICE_ESSENCE
  | ABIL_RU_SACRIFICE_HEALTH
  | ABIL_RU_SACRIFICE_STEALTH
  | ABIL_RU_SACRIFICE_ARTIFICE
  | ABIL_RU_SACRIFICE_LOVE
  | ABIL_RU_SACRIFICE_COURAGE
  | ABIL_RU_SACRIFICE_ARCANA
  | ABIL_RU_SACRIFICE_NIMBLENESS
  | ABIL_RU_SACRIFICE_DURABILITY
  | ABIL_RU_SACRIFICE_HAND
  | ABIL_RU_SACRIFICE_EXPERIENCE
  | ABIL_RU_SACRIFICE_SKILL
  | ABIL_RU_SACRIFICE_EYE
  | ABIL_RU_SACRIFICE_RESISTANCE
  | ABIL_RU_REJECT_SACRIFICES
  | ABIL_GOZAG_POTION_PETITION
  | ABIL_GOZAG_CALL_MERCHANT
  | ABIL_GOZAG_BRIBE_BRANCH
  | ABIL_QAZLAL_UPHEAVAL
  | ABIL_QAZLAL_ELEMENTAL_FORCE
  | ABIL_QAZLAL_DISASTER_AREA
  | ABIL_PAKELLAS_DEVICE_SURGE
  | ABIL_PAKELLAS_QUICK_CHARGE
  | ABIL_PAKELLAS_SUPERCHARGE
  | ABIL_STOP_RECALL
  | ABIL_RENOUNCE_RELIGION
  | ABIL_CONVERT_TO_BEOGH
  | ABIL_UNKNOWN_A
  | ABIL_UNKNOWN_B
deriving DecidableEq, Inhabited


/-- One action definition (`struct ability_def`): identity, display
name, magic cost, hit-point cost, food cost, piety cost, flags. -/
structure ability_def where
  ability : ability_type
  name : String
  mp_cost : Nat
  hp_cost : scaling_cost
  food_cost : Nat
  piety_cost : generic_cost
  flags : Nat
deriving DecidableEq

instance : Inhabited ability_def :=
  ⟨⟨ability_type.ABIL_NON_ABILITY, "No ability", 0, scaling_cost.ofInt 0, 0,
    generic_cost.ofInt 0, abflag.NONE⟩⟩

/-- The static action registry `Ability_List` (`NON_ABILITY` first). -/
def Ability_List : List ability_def :=
[
  ability_def.mk .ABIL_NON_ABILITY "No ability" 0 (scaling_cost.ofInt 0) 0 (generic_cost.ofInt 0) (abflag.NONE),
  ability_def.mk .ABIL_SPIT_POISON "Spit Poison" 0 (scaling_cost.ofInt 0) 40 (generic_cost.ofInt 0) (abflag.BREATH),
  ability_def.mk .ABIL_BLINK "Blink" 0 (scaling_cost.ofInt 50) 50 (generic_cost.ofInt 0) (abflag.NONE),
  ability_def.mk .ABIL_BREATHE_FIRE "Breathe Fire" 0 (scaling_cost.ofInt 0) 125 (generic_cost.ofInt 0) (abflag.BREATH),
  ability_def.mk .ABIL_BREATHE_FROST "Breathe Frost" 0 (scaling_cost.ofInt 0) 125 (generic_cost.ofInt 0) (abflag.BREATH),
  ability_def.mk .ABIL_BREATHE_POISON "Breathe Poison Gas" 0 (scaling_cost.ofInt 0) 125 (generic_cost.ofInt 0) (abflag.BREATH),
  ability_def.mk .ABIL_BREATHE_MEPHITIC "Breathe Noxious Fumes" 0 (scaling_cost.ofInt 0) 125 (generic_cost.ofInt 0) (abflag.BREATH),
  ability_def.mk .ABIL_BREATHE_LIGHTNING "Breathe Lightning" 0 (scaling_cost.ofInt 0) 125 (generic_cost.ofInt 0) (abflag.BREATH),
  ability_def.mk .ABIL_BREATHE_POWER "Breathe Dispelling Energy" 0 (scaling_cost.ofInt 0) 125 (generic_cost.ofInt 0) (abflag.BREATH),
  ability_def.mk .ABIL_BREATHE_STICKY_FLAME "Breathe Sticky Flame" 0 (scaling_cost.ofInt 0) 125 (generic_cost.ofInt 0) (abflag.BREATH),
  ability_def.mk .ABIL_BREATHE_STEAM "Breathe Steam" 0 (scaling_cost.ofInt 0) 75 (generic_cost.ofInt 0) (abflag.BREATH),
  ability_def.mk .ABIL_TRAN_BAT "Bat Form" 2 (scaling_cost.ofInt 0) 0 (generic_cost.ofInt 0) (abflag.NONE),
  ability_def.mk .ABIL_SPIT_ACID "Spit Acid" 0 (scaling_cost.ofInt 0) 125 (generic_cost.ofInt 0) (abflag.BREATH),
  ability_def.mk .ABIL_FLY "Fly" 3 (scaling_cost.ofInt 0) 100 (generic_cost.ofInt 0) (abflag.NONE),
  ability_def.mk .ABIL_STOP_FLYING "Stop Flying" 0 (scaling_cost.ofInt 0) 0 (generic_cost.ofInt 0) (abflag.NONE),
  ability_def.mk .ABIL_HELLFIRE "Hellfire" 0 (scaling_cost.ofInt 150) 200 (generic_cost.ofInt 0) (abflag.NONE),
  ability_def.mk .ABIL_DELAYED_FIREBALL "Release Delayed Fireball" 0 (scaling_cost.ofInt 0) 0 (generic_cost.ofInt 0) (abflag.INSTANT),
  ability_def.mk .ABIL_STOP_SINGING "Stop Singing" 0 (scaling_cost.ofInt 0) 0 (generic_cost.ofInt 0) (abflag.NONE),
  ability_def.mk .ABIL_MUMMY_RESTORATION "Self-Restoration" 1 (scaling_cost.ofInt 0) 0 (generic_cost.ofInt 0) (abflag.PERMANENT_MP),
  ability_def.mk .ABIL_DIG "Dig" 0 (scaling_cost.ofInt 0) 0 (generic_cost.ofInt 0) (abflag.INSTANT),
  ability_def.mk .ABIL_SHAFT_SELF "Shaft Self" 0 (scaling_cost.ofInt 0) 250 (generic_cost.ofInt 0) (abflag.DELAY),
  ability_def.mk .ABIL_EVOKE_BLINK "Evoke Blink" 1 (scaling_cost.ofInt 0) 50 (generic_cost.ofInt 0) (abflag.NONE),
  ability_def.mk .ABIL_RECHARGING "Device Recharging" 1 (scaling_cost.ofInt 0) 0 (generic_cost.ofInt 0) (abflag.PERMANENT_MP),
  ability_def.mk .ABIL_EVOKE_BERSERK "Evoke Berserk Rage" 0 (scaling_cost.ofInt 0) 0 (generic_cost.ofInt 0) (abflag.NONE),
  ability_def.mk .ABIL_EVOKE_TURN_INVISIBLE "Evoke Invisibility" 2 (scaling_cost.ofInt 0) 250 (generic_cost.ofInt 0) (abflag.NONE),
  ability_def.mk .ABIL_EVOKE_TURN_VISIBLE "Turn Visible" 0 (scaling_cost.ofInt 0) 0 (generic_cost.ofInt 0) (abflag.NONE),
  ability_def.mk .ABIL_EVOKE_FLIGHT "Evoke Flight" 1 (scaling_cost.ofInt 0) 100 (generic_cost.ofInt 0) (abflag.NONE),
  ability_def.mk .ABIL_EVOKE_FOG "Evoke Fog" 2 (scaling_cost.ofInt 0) 250 (generic_cost.ofInt 0) (abflag.NONE),
  ability_def.mk .ABIL_END_TRANSFORMATION "End Transformation" 0 (scaling_cost.ofInt 0) 0 (generic_cost.ofInt 0) (abflag.NONE),
  ability_def.mk .ABIL_ZIN_RECITE "Recite" 0 (scaling_cost.ofInt 0) 0 (generic_cost.ofInt 0) (abflag.BREATH),
  ability_def.mk .ABIL_ZIN_VITALISATION "Vitalisation" 2 (scaling_cost.ofInt 0) 0 (generic_cost.ofInt 1) (abflag.NONE),
  ability_def.mk .ABIL_ZIN_IMPRISON "Imprison" 5 (scaling_cost.ofInt 0) 125 (generic_cost.ofInt 4) (abflag.NONE),
  ability_def.mk .ABIL_ZIN_SANCTUARY "Sanctuary" 7 (scaling_cost.ofInt 0) 150 (generic_cost.ofInt 15) (abflag.NONE),
  ability_def.mk .ABIL_ZIN_CURE_ALL_MUTATIONS "Cure All Mutations" 0 (scaling_cost.ofInt 0) 0 (generic_cost.ofInt 0) (abflag.NONE),
  ability_def.mk .ABIL_ZIN_DONATE_GOLD "Donate Gold" 0 (scaling_cost.ofInt 0) 0 (generic_cost.ofInt 0) (abflag.NONE),
  ability_def.mk .ABIL_TSO_DIVINE_SHIELD "Divine Shield" 3 (scaling_cost.ofInt 0) 50 (generic_cost.ofInt 2) (abflag.NONE),
  ability_def.mk .ABIL_TSO_CLEANSING_FLAME "Cleansing Flame" 5 (scaling_cost.ofInt 0) 100 (generic_cost.ofInt 2) (abflag.NONE),
  ability_def.mk .ABIL_TSO_SUMMON_DIVINE_WARRIOR "Summon Divine Warrior" 8 (scaling_cost.ofInt 0) 150 (generic_cost.ofInt 5) (abflag.NONE),
  ability_def.mk .ABIL_TSO_BLESS_WEAPON "Brand Weapon With Holy Wrath" 0 (scaling_cost.ofInt 0) 0 (generic_cost.ofInt 0) (abflag.NONE),
  ability_def.mk .ABIL_KIKU_RECEIVE_CORPSES "Receive Corpses" 3 (scaling_cost.ofInt 0) 50 (generic_cost.ofInt 2) (abflag.NONE),
  ability_def.mk .ABIL_KIKU_TORMENT "Torment" 4 (scaling_cost.ofInt 0) 0 (generic_cost.ofInt 8) (abflag.NONE),
  ability_def.mk .ABIL_KIKU_GIFT_NECRONOMICON "Receive Necronomicon" 0 (scaling_cost.ofInt 0) 0 (generic_cost.ofInt 0) (abflag.NONE),
  ability_def.mk .ABIL_KIKU_BLESS_WEAPON "Brand Weapon With Pain" 0 (scaling_cost.ofInt 0) 0 (generic_cost.ofInt 0) (abflag.PAIN),
  ability_def.mk .ABIL_YRED_INJURY_MIRROR "Injury Mirror" 0 (scaling_cost.ofInt 0) 0 (generic_cost.ofInt 0) (abflag.PIETY),
  ability_def.mk .ABIL_YRED_ANIMATE_REMAINS "Animate Remains" 2 (scaling_cost.ofInt 0) 50 (generic_cost.ofInt 0) (abflag.NONE),
  ability_def.mk .ABIL_YRED_RECALL_UNDEAD_SLAVES "Recall Undead Slaves" 2 (scaling_cost.ofInt 0) 50 (generic_cost.ofInt 0) (abflag.NONE),
  ability_def.mk .ABIL_YRED_ANIMATE_DEAD "Animate Dead" 2 (scaling_cost.ofInt 0) 50 (generic_cost.ofInt 0) (abflag.NONE),
  ability_def.mk .ABIL_YRED_DRAIN_LIFE "Drain Life" 6 (scaling_cost.ofInt 0) 200 (generic_cost.ofInt 2) (abflag.NONE),
  ability_def.mk .ABIL_YRED_ENSLAVE_SOUL "Enslave Soul" 8 (scaling_cost.ofInt 0) 150 (generic_cost.ofInt 4) (abflag.NONE),
  ability_def.mk .ABIL_OKAWARU_HEROISM "Heroism" 2 (scaling_cost.ofInt 0) 50 (generic_cost.ofInt 1) (abflag.NONE),
  ability_def.mk .ABIL_OKAWARU_FINESSE "Finesse" 5 (scaling_cost.ofInt 0) 100 (generic_cost.ofInt 3) (abflag.NONE),
  ability_def.mk .ABIL_MAKHLEB_MINOR_DESTRUCTION "Minor Destruction" 0 (scaling_cost.fixed 1) 20 (generic_cost.ofInt 0) (abflag.NONE),
  ability_def.mk .ABIL_MAKHLEB_LESSER_SERVANT_OF_MAKHLEB "Lesser Servant of Makhleb" 0 (scaling_cost.fixed 4) 50 (generic_cost.ofInt 2) (abflag.HOSTILE),
  ability_def.mk .ABIL_MAKHLEB_MAJOR_DESTRUCTION "Major Destruction" 0 (scaling_cost.fixed 6) 100 (generic_cost.range 0 1) (abflag.NONE),
  ability_def.mk .ABIL_MAKHLEB_GREATER_SERVANT_OF_MAKHLEB "Greater Servant of Makhleb" 0 (scaling_cost.fixed 10) 100 (generic_cost.ofInt 5) (abflag.HOSTILE),
  ability_def.mk .ABIL_SIF_MUNA_CHANNEL_ENERGY "Channel Energy" 0 (scaling_cost.ofInt 0) 100 (generic_cost.ofInt 0) (abflag.NONE),
  ability_def.mk .ABIL_SIF_MUNA_FORGET_SPELL "Forget Spell" 5 (scaling_cost.ofInt 0) 0 (generic_cost.ofInt 8) (abflag.NONE),
  ability_def.mk .ABIL_TROG_BURN_SPELLBOOKS "Burn Spellbooks" 0 (scaling_cost.ofInt 0) 10 (generic_cost.ofInt 0) (abflag.NONE),
  ability_def.mk .ABIL_TROG_BERSERK "Berserk" 0 (scaling_cost.ofInt 0) 200 (generic_cost.ofInt 0) (abflag.NONE),
  ability_def.mk .ABIL_TROG_REGEN_MR "Trog's Hand" 0 (scaling_cost.ofInt 0) 50 (generic_cost.ofInt 2) (abflag.NONE),
  ability_def.mk .ABIL_TROG_BROTHERS_IN_ARMS "Brothers in Arms" 0 (scaling_cost.ofInt 0) 100 (generic_cost.range 5 6) (abflag.NONE),
  ability_def.mk .ABIL_ELYVILON_LIFESAVING "Divine Protection" 0 (scaling_cost.ofInt 0) 0 (generic_cost.ofInt 0) (abflag.NONE),
  ability_def.mk .ABIL_ELYVILON_LESSER_HEALING "Lesser Healing" 1 (scaling_cost.ofInt 0) 100 (generic_cost.range 0 1) (abflag.CONF_OK),
  ability_def.mk .ABIL_ELYVILON_HEAL_OTHER "Heal Other" 2 (scaling_cost.ofInt 0) 250 (generic_cost.ofInt 2) (abflag.NONE),
  ability_def.mk .ABIL_ELYVILON_PURIFICATION "Purification" 3 (scaling_cost.ofInt 0) 300 (generic_cost.ofInt 3) (abflag.CONF_OK),
  ability_def.mk .ABIL_ELYVILON_GREATER_HEALING "Greater Healing" 2 (scaling_cost.ofInt 0) 250 (generic_cost.ofInt 3) (abflag.CONF_OK),
  ability_def.mk .ABIL_ELYVILON_DIVINE_VIGOUR "Divine Vigour" 0 (scaling_cost.ofInt 0) 600 (generic_cost.ofInt 6) (abflag.CONF_OK),
  ability_def.mk .ABIL_LUGONU_ABYSS_EXIT "Depart the Abyss" 1 (scaling_cost.ofInt 0) 150 (generic_cost.ofInt 10) (abflag.NONE),
  ability_def.mk .ABIL_LUGONU_BEND_SPACE "Bend Space" 1 (scaling_cost.ofInt 0) 50 (generic_cost.ofInt 0) (abflag.PAIN),
  ability_def.mk .ABIL_LUGONU_BANISH "Banish" 4 (scaling_cost.ofInt 0) 200 (generic_cost.range 3 4) (abflag.NONE),
  ability_def.mk .ABIL_LUGONU_CORRUPT "Corrupt" 7 (scaling_cost.fixed 5) 500 (generic_cost.ofInt 10) (abflag.NONE),
  ability_def.mk .ABIL_LUGONU_ABYSS_ENTER "Enter the Abyss" 9 (scaling_cost.ofInt 0) 500 (generic_cost.fixed 35) (abflag.PAIN),
  ability_def.mk .ABIL_LUGONU_BLESS_WEAPON "Brand Weapon With Distortion" 0 (scaling_cost.ofInt 0) 0 (generic_cost.ofInt 0) (abflag.NONE),
  ability_def.mk .ABIL_NEMELEX_TRIPLE_DRAW "Triple Draw" 2 (scaling_cost.ofInt 0) 100 (generic_cost.ofInt 2) (abflag.NONE),
  ability_def.mk .ABIL_NEMELEX_DEAL_FOUR "Deal Four" 8 (scaling_cost.ofInt 0) 200 (generic_cost.ofInt 8) (abflag.NONE),
  ability_def.mk .ABIL_NEMELEX_STACK_FIVE "Stack Five" 5 (scaling_cost.ofInt 0) 250 (generic_cost.ofInt 10) (abflag.NONE),
  ability_def.mk .ABIL_BEOGH_SMITING "Smiting" 3 (scaling_cost.ofInt 0) 80 (generic_cost.fixed 3) (abflag.NONE),
  ability_def.mk .ABIL_BEOGH_RECALL_ORCISH_FOLLOWERS "Recall Orcish Followers" 2 (scaling_cost.ofInt 0) 50 (generic_cost.ofInt 0) (abflag.NONE),
  ability_def.mk .ABIL_BEOGH_GIFT_ITEM "Give Item to Named Follower" 0 (scaling_cost.ofInt 0) 0 (generic_cost.ofInt 0) (abflag.NONE),
  ability_def.mk .ABIL_JIYVA_CALL_JELLY "Request Jelly" 2 (scaling_cost.ofInt 0) 20 (generic_cost.ofInt 1) (abflag.NONE),
  ability_def.mk .ABIL_JIYVA_JELLY_PARALYSE "Jelly Paralyse" 3 (scaling_cost.ofInt 0) 0 (generic_cost.ofInt 0) (abflag.PIETY),
  ability_def.mk .ABIL_JIYVA_SLIMIFY "Slimify" 4 (scaling_cost.ofInt 0) 100 (generic_cost.ofInt 8) (abflag.NONE),
  ability_def.mk .ABIL_JIYVA_CURE_BAD_MUTATION "Cure Bad Mutation" 8 (scaling_cost.ofInt 0) 200 (generic_cost.ofInt 15) (abflag.NONE),
  ability_def.mk .ABIL_FEDHAS_EVOLUTION "Evolution" 2 (scaling_cost.ofInt 0) 0 (generic_cost.ofInt 0) (abflag.VARIABLE_FRUIT),
  ability_def.mk .ABIL_FEDHAS_SUNLIGHT "Sunlight" 2 (scaling_cost.ofInt 0) 50 (generic_cost.ofInt 0) (abflag.NONE),
  ability_def.mk .ABIL_FEDHAS_PLANT_RING "Growth" 2 (scaling_cost.ofInt 0) 0 (generic_cost.ofInt 0) (abflag.FRUIT),
  ability_def.mk .ABIL_FEDHAS_SPAWN_SPORES "Reproduction" 4 (scaling_cost.ofInt 0) 100 (generic_cost.ofInt 1) (abflag.NONE),
  ability_def.mk .ABIL_FEDHAS_RAIN "Rain" 4 (scaling_cost.ofInt 0) 150 (generic_cost.ofInt 4) (abflag.NONE),
  ability_def.mk .ABIL_CHEIBRIADOS_TIME_BEND "Bend Time" 3 (scaling_cost.ofInt 0) 50 (generic_cost.ofInt 1) (abflag.NONE),
  ability_def.mk .ABIL_CHEIBRIADOS_DISTORTION "Temporal Distortion" 4 (scaling_cost.ofInt 0) 200 (generic_cost.ofInt 3) (abflag.INSTANT),
  ability_def.mk .ABIL_CHEIBRIADOS_SLOUCH "Slouch" 5 (scaling_cost.ofInt 0) 100 (generic_cost.ofInt 8) (abflag.NONE),
  ability_def.mk .ABIL_CHEIBRIADOS_TIME_STEP "Step From Time" 10 (scaling_cost.ofInt 0) 200 (generic_cost.ofInt 10) (abflag.NONE),
  ability_def.mk .ABIL_ASHENZARI_SCRYING "Scrying" 4 (scaling_cost.ofInt 0) 50 (generic_cost.ofInt 2) (abflag.INSTANT),
  ability_def.mk .ABIL_ASHENZARI_TRANSFER_KNOWLEDGE "Transfer Knowledge" 0 (scaling_cost.ofInt 0) 0 (generic_cost.ofInt 10) (abflag.NONE),
  ability_def.mk .ABIL_ASHENZARI_END_TRANSFER "End Transfer Knowledge" 0 (scaling_cost.ofInt 0) 0 (generic_cost.ofInt 0) (abflag.NONE),
  ability_def.mk .ABIL_DITHMENOS_SHADOW_STEP "Shadow Step" 4 (scaling_cost.ofInt 0) 0 (generic_cost.ofInt 4) (abflag.NONE),
  ability_def.mk .ABIL_DITHMENOS_SHADOW_FORM "Shadow Form" 9 (scaling_cost.ofInt 0) 0 (generic_cost.ofInt 10) (abflag.SKILL_DRAIN),
  ability_def.mk .ABIL_RU_DRAW_OUT_POWER "Draw Out Power" 0 (scaling_cost.ofInt 0) 0 (generic_cost.ofInt 0) (abflag.EXHAUSTION ||| abflag.SKILL_DRAIN ||| abflag.CONF_OK),
  ability_def.mk .ABIL_RU_POWER_LEAP "Power Leap" 5 (scaling_cost.ofInt 0) 0 (generic_cost.ofInt 0) (abflag.EXHAUSTION),
  ability_def.mk .ABIL_RU_APOCALYPSE "Apocalypse" 8 (scaling_cost.ofInt 0) 0 (generic_cost.ofInt 0) (abflag.EXHAUSTION ||| abflag.SKILL_DRAIN),
  ability_def.mk .ABIL_RU_SACRIFICE_PURITY "Sacrifice Purity" 0 (scaling_cost.ofInt 0) 0 (generic_cost.ofInt 0) (abflag.SACRIFICE),
  ability_def.mk .ABIL_RU_SACRIFICE_WORDS "Sacrifice Words" 0 (scaling_cost.ofInt 0) 0 (generic_cost.ofInt 0) (abflag.SACRIFICE),
  ability_def.mk .ABIL_RU_SACRIFICE_DRINK "Sacrifice Drink" 0 (scaling_cost.ofInt 0) 0 (generic_cost.ofInt 0) (abflag.SACRIFICE),
  ability_def.mk .ABIL_RU_SACRIFICE_ESSENCE "Sacrifice Essence" 0 (scaling_cost.ofInt 0) 0 (generic_cost.ofInt 0) (abflag.SACRIFICE),
  ability_def.mk .ABIL_RU_SACRIFICE_HEALTH "Sacrifice Health" 0 (scaling_cost.ofInt 0) 0 (generic_cost.ofInt 0) (abflag.SACRIFICE),
  ability_def.mk .ABIL_RU_SACRIFICE_STEALTH "Sacrifice Stealth" 0 (scaling_cost.ofInt 0) 0 (generic_cost.ofInt 0) (abflag.SACRIFICE),
  ability_def.mk .ABIL_RU_SACRIFICE_ARTIFICE "Sacrifice Artifice" 0 (scaling_cost.ofInt 0) 0 (generic_cost.ofInt 0) (abflag.SACRIFICE),
  ability_def.mk .ABIL_RU_SACRIFICE_LOVE "Sacrifice Love" 0 (scaling_cost.ofInt 0) 0 (generic_cost.ofInt 0) (abflag.SACRIFICE),
  ability_def.mk .ABIL_RU_SACRIFICE_COURAGE "Sacrifice Courage" 0 (scaling_cost.ofInt 0) 0 (generic_cost.ofInt 0) (abflag.SACRIFICE),
  ability_def.mk .ABIL_RU_SACRIFICE_ARCANA "Sacrifice Arcana" 0 (scaling_cost.ofInt 0) 0 (generic_cost.ofInt 0) (abflag.SACRIFICE),
  ability_def.mk .ABIL_RU_SACRIFICE_NIMBLENESS "Sacrifice Nimbleness" 0 (scaling_cost.ofInt 0) 0 (generic_cost.ofInt 0) (abflag.SACRIFICE),
  ability_def.mk .ABIL_RU_SACRIFICE_DURABILITY "Sacrifice Durability" 0 (scaling_cost.ofInt 0) 0 (generic_cost.ofInt 0) (abflag.SACRIFICE),
  ability_def.mk .ABIL_RU_SACRIFICE_HAND "Sacrifice a Hand" 0 (scaling_cost.ofInt 0) 0 (generic_cost.ofInt 0) (abflag.SACRIFICE),
  ability_def.mk .ABIL_RU_SACRIFICE_EXPERIENCE "Sacrifice Experience" 0 (scaling_cost.ofInt 0) 0 (generic_cost.ofInt 0) (abflag.SACRIFICE),
  ability_def.mk .ABIL_RU_SACRIFICE_SKILL "Sacrifice Skill" 0 (scaling_cost.ofInt 0) 0 (generic_cost.ofInt 0) (abflag.SACRIFICE),
  ability_def.mk .ABIL_RU_SACRIFICE_EYE "Sacrifice an Eye" 0 (scaling_cost.ofInt 0) 0 (generic_cost.ofInt 0) (abflag.SACRIFICE),
  ability_def.mk .ABIL_RU_SACRIFICE_RESISTANCE "Sacrifice Resistance" 0 (scaling_cost.ofInt 0) 0 (generic_cost.ofInt 0) (abflag.SACRIFICE),
  ability_def.mk .ABIL_RU_REJECT_SACRIFICES "Reject Sacrifices" 0 (scaling_cost.ofInt 0) 0 (generic_cost.ofInt 0) (abflag.NONE),
  ability_def.mk .ABIL_GOZAG_POTION_PETITION "Potion Petition" 0 (scaling_cost.ofInt 0) 0 (generic_cost.ofInt 0) (abflag.GOLD),
  ability_def.mk .ABIL_GOZAG_CALL_MERCHANT "Call Merchant" 0 (scaling_cost.ofInt 0) 0 (generic_cost.ofInt 0) (abflag.GOLD),
  ability_def.mk .ABIL_GOZAG_BRIBE_BRANCH "Bribe Branch" 0 (scaling_cost.ofInt 0) 0 (generic_cost.ofInt 0) (abflag.GOLD),
  ability_def.mk .ABIL_QAZLAL_UPHEAVAL "Upheaval" 4 (scaling_cost.ofInt 0) 0 (generic_cost.ofInt 3) (abflag.NONE),
  ability_def.mk .ABIL_QAZLAL_ELEMENTAL_FORCE "Elemental Force" 6 (scaling_cost.ofInt 0) 0 (generic_cost.ofInt 6) (abflag.NONE),
  ability_def.mk .ABIL_QAZLAL_DISASTER_AREA "Disaster Area" 7 (scaling_cost.ofInt 0) 0 (generic_cost.ofInt 10) (abflag.NONE),
  ability_def.mk .ABIL_PAKELLAS_DEVICE_SURGE "Device Surge" 0 (scaling_cost.ofInt 0) 100 (generic_cost.fixed 1) (abflag.VARIABLE_MP ||| abflag.INSTANT),
  ability_def.mk .ABIL_PAKELLAS_QUICK_CHARGE "Quick Charge" 0 (scaling_cost.ofInt 0) 100 (generic_cost.ofInt 2) (abflag.NONE),
  ability_def.mk .ABIL_PAKELLAS_SUPERCHARGE "Supercharge" 0 (scaling_cost.ofInt 0) 0 (generic_cost.ofInt 0) (abflag.NONE),
  ability_def.mk .ABIL_STOP_RECALL "Stop Recall" 0 (scaling_cost.ofInt 0) 0 (generic_cost.ofInt 0) (abflag.NONE),
  ability_def.mk .ABIL_RENOUNCE_RELIGION "Renounce Religion" 0 (scaling_cost.ofInt 0) 0 (generic_cost.ofInt 0) (abflag.NONE),
  ability_def.mk .ABIL_CONVERT_TO_BEOGH "Convert to Beogh" 0 (scaling_cost.ofInt 0) 0 (generic_cost.ofInt 0) (abflag.NONE)
]

/-- `get_ability_def(abil)`: scan `Ability_List` for the first entry whose
identity matches; fall back to `Ability_List[0]` (the sentinel). -/
def get_ability_def (abil : ability_type) : ability_def :=
  match Ability_List.find? (fun ab_def => ab_def.ability == abil) with
  | some ab_def => ab_def
  | none => Ability_List.headI

/-- `ability_mp_cost(abil)`. -/
def ability_mp_cost (abil : ability_type) : Nat := (get_ability_def abil).mp_cost

/-- `ability_name(ability)`: the registry display name. -/
def ability_name (ability : ability_type) : String := (get_ability_def ability).name

/-- Outcomes of the action executor (`enum spret_type`). -/
inductive spret_type where
  | SPRET_ABORT
  | SPRET_FAIL
  | SPRET_SUCCESS
  | SPRET_NONE
deriving DecidableEq, Inhabited

/-- Species values distinguished by the reviewed modules; every other
species behaves alike here and is collapsed into `SP_OTHER`. -/
inductive Species where
  | SP_FORMICID
  | SP_FELID
  | SP_DEEP_DWARF
  | SP_VAMPIRE
  | SP_BASE_DRACONIAN
  | SP_RED_DRACONIAN
  | SP_DJINNI
  | SP_OTHER
deriving DecidableEq, Inhabited

/-- Transformation values distinguished by the reviewed modules. -/
inductive Form where
  | TRAN_NONE
  | TRAN_DRAGON
  | TRAN_BAT
  | TRAN_TREE
  | TRAN_OTHER
deriving DecidableEq, Inhabited

/-- Skills queried by the failure-rate formulas. -/
inductive Skill where
  | SK_EVOCATIONS
  | SK_INVOCATIONS
  | SK_NECROMANCY
deriving DecidableEq, Inhabited

/-- An offered action (`struct talent`): resolved identity, input
hotkey, failure percentage, invocation-class flag. -/
structure talent where
  which : ability_type
  hotkey : Int
  fail : Int
  is_invocation : Bool
deriving DecidableEq

/-- One god power row as consumed by `get_god_abilities`
(`get_god_powers` lives in the external religion module; only the
fields read here are modelled). -/
structure god_power where
  rank : Int
  abil : ability_type

/-- One `Options.auto_ability_letters` rule: a text pattern (modelled as
its match predicate `pattern_matches`) and the option string's characters. -/
structure auto_mapping where
  pattern_matches : String → Bool
  letters : List Char

/-- Modelled from the spec: hunger-state thresholds of the external food
module; only their relative order is consumed by the reviewed code. -/
def HS_STARVING : Int := 1

/-- Modelled from the spec: the satiated hunger-state threshold. -/
def HS_SATIATED : Int := 5

/-- Modelled from the spec: the inventory keymap helper mapping slot
index 0..25 to the codes of a..z and 26..51 to the codes of A..Z. -/
def index_to_letter (index : Int) : Int :=
  index + (if index < 26 then 97 else 65 - 26)

/-- Modelled from the spec: inverse keymap helper,
`letter - (letter >= a-code ? a-code : A-code - 26)`. -/
def letter_to_index (letter : Char) : Int :=
  (letter.toNat : Int) - (if letter.toNat >= 97 then 97 else 65 - 26)

/-- Modelled from the spec: `isaalpha` — an ASCII letter. -/
def isaalpha (c : Char) : Bool :=
  (97 <= c.toNat && c.toNat <= 122) || (65 <= c.toNat && c.toNat <= 90)

/-- Modelled from the spec: `lowercase_string` on ASCII display names. -/
def lowercase_string (s : String) : String := s.toLower

/-- The actor state and the external query surface read by the reviewed
modules (the global `you`, `crawl_state`, `env`, `Options` and the RNG
stream), threaded explicitly. Mutable fields come first; every other
field is a read-only answer to one external call the code makes. -/
structure You where
  -- resource pools and bookkeeping mutated by cost settlement
  magic_points : Int
  max_magic_points : Int
  hp : Int
  hp_max : Int
  hunger : Int
  piety : Int
  turn_is_over : Bool
  -- set when `crawl_state.zero_turns_taken()` is called
  turns_zeroed : Bool
  -- the persistent slot table `you.ability_letter_table` (52 entries)
  ability_letter_table : List ability_type
  -- queries used by fixup_ability
  in_good_standing_yred_2 : Bool
  recall_list_empty : Bool
  is_lifeless_undead : Bool
  species : Species
  brdepth_abyss : Int
  -- queries used by get_talent
  confused : Bool
  experience_level : Int
  mut_spit_poison : Int
  mut_blink : Int
  form : Form
  skill : Skill → Nat → Int
  piety_breakpoint : Nat → Int
  -- Options.auto_ability_letters
  auto_ability_letters : List auto_mapping
  -- queries used by your_talents
  mut_mummy_restoration : Int
  mut_tengu_flight : Int
  mut_hurl_hellfire : Int
  mut_no_artifice : Int
  game_is_sprint : Bool
  brdepth_where : Int
  species_is_draconian : Bool
  form_changed_physiology : Bool
  draconian_breath : ability_type
  hunger_state : Int
  airborne : Bool
  racial_permanent_flight : Bool
  attr_perm_flight : Bool
  dur_transformation : Int
  transform_uncancellable : Bool
  worship_no_god : Bool
  level_state_beogh : Bool
  can_convert_to_beogh : Bool
  dragon_form_fire : Bool
  attr_delayed_fireball : Bool
  dur_song_of_slaying : Int
  scan_artefacts_blink : Bool
  scan_artefacts_fog : Bool
  evokable_berserk : Bool
  evokable_invis : Bool
  attr_invis_uncancellable : Bool
  dur_invis : Int
  evokable_flight : Bool
  permanent_flight : Bool
  attr_flight_uncancellable : Bool
  wearing_ego_flying : Bool
  -- queries used by get_god_abilities
  worship_ru : Bool
  available_sacrifices : List ability_type
  transfer_skill_points : Int
  silenced : Bool
  god_powers : List god_power
  can_do_capstone : Bool
  piety_rank : Int
  player_under_penance : Bool
  -- queries used by activate_talent
  berserk : Bool
  feat_dangerous_stop_flying : Bool
  form_stat_safe_bat : Bool
  feat_dangerous_end_transform : Bool
  form_stat_safe_none : Bool
  can_go_berserk : Bool
  flight_allowed : Bool
  is_undead : Bool
  foodless : Bool
  enough_mp : Nat → Bool
  enough_hp : Int → Bool
  check_ability_possible : ability_type → Bool → Bool
  -- RNG stream answers consumed during one attempt
  fail_roll : Int
  food_rand : Int
  piety_draws : List Int
  rand_round_up : Bool
  -- the effect dispatch `_do_ability`, as an outcome oracle over the
  -- resolved definition identity and the failure roll
  do_ability : ability_type → Bool → spret_type

/-- The resource pools of the actor, as one tuple: current and maximum
magic, current and maximum hit points, hunger, piety. -/
def pools (y : You) : Int × Int × Int × Int × Int × Int :=
  (y.magic_points, y.max_magic_points, y.hp, y.hp_max, y.hunger, y.piety)

/-- `fixup_ability(ability)`: the redirect/placeholder mapping applied
before any other processing. -/
def fixup_ability (y : You) (ability : ability_type) : ability_type :=
  match ability with
  | .ABIL_YRED_ANIMATE_REMAINS =>
      if y.in_good_standing_yred_2 then .ABIL_NON_ABILITY else ability
  | .ABIL_YRED_RECALL_UNDEAD_SLAVES | .ABIL_BEOGH_RECALL_ORCISH_FOLLOWERS =>
      if !y.recall_list_empty then .ABIL_STOP_RECALL else ability
  | .ABIL_EVOKE_BERSERK | .ABIL_TROG_BERSERK =>
      if y.is_lifeless_undead || y.species == .SP_FORMICID then .ABIL_NON_ABILITY
      else ability
  | .ABIL_BLINK | .ABIL_EVOKE_BLINK =>
      if y.species == .SP_FORMICID then .ABIL_NON_ABILITY else ability
  | .ABIL_LUGONU_ABYSS_EXIT | .ABIL_LUGONU_ABYSS_ENTER =>
      if y.brdepth_abyss == -1 then .ABIL_NON_ABILITY else ability
  | .ABIL_TSO_BLESS_WEAPON | .ABIL_KIKU_BLESS_WEAPON | .ABIL_LUGONU_BLESS_WEAPON =>
      if y.species == .SP_FELID then .ABIL_NON_ABILITY else ability
  | _ => ability

/-- `_lookup_ability_slot(abil)`: first slot 0..51 whose (fixed-up)
table entry is `abil`, else -1. -/
def lookup_ability_slot (y : You) (abil : ability_type) : Int :=
  match (List.range 52).find? (fun slot =>
      fixup_ability y (y.ability_letter_table.getD slot .ABIL_NON_ABILITY) == abil) with
  | some slot => (slot : Int)
  | none => -1

/-- `swap_ability_slots(index1, index2, silent=true)`: swap the two
table references (the non-silent branch only prints). -/
def swap_ability_slots (y : You) (index1 index2 : Nat) : You :=
  let tmp := y.ability_letter_table.getD index2 .ABIL_NON_ABILITY
  let fst := y.ability_letter_table.getD index1 .ABIL_NON_ABILITY
  { y with ability_letter_table :=
      (y.ability_letter_table.set index2 fst).set index1 tmp }

/-- The inner character loop of `auto_assign_ability_slot`: walks one
matching rule's option characters, toggling the `overwrite` flag on
`+`/`-`, claiming the first eligible lettered slot, and early-returning
the new index; otherwise hands the final `overwrite` back for the next
rule. -/
def auto_assign_chars (y : You) (slot : Nat) (abil_type : ability_type)
    (pm : String → Bool) :
    List Char → Bool → Bool × Option (Int × You)
  | [], overwrite => (overwrite, none)
  | i :: rest, overwrite =>
    if i == '+' then auto_assign_chars y slot abil_type pm rest true
    else if i == '-' then auto_assign_chars y slot abil_type pm rest false
    else if isaalpha i then
      let index := (letter_to_index i).toNat
      let existing_ability := y.ability_letter_table.getD index .ABIL_NON_ABILITY
      if existing_ability == .ABIL_NON_ABILITY || existing_ability == abil_type then
        -- unassigned or already assigned to this ability
        let y2 := { y with ability_letter_table :=
                      y.ability_letter_table.set index abil_type }
        let y3 := if slot != index then
                    { y2 with ability_letter_table :=
                        y2.ability_letter_table.set slot .ABIL_NON_ABILITY }
                  else y2
        (overwrite, some ((index : Int), y3))
      else if overwrite then
        -- do not overwrite an ability matched by the same rule
        if pm (lowercase_string (ability_name existing_ability)) then
          auto_assign_chars y slot abil_type pm rest overwrite
        else
          let y2 := { y with ability_letter_table :=
                        y.ability_letter_table.set slot abil_type }
          (overwrite, some ((index : Int), swap_ability_slots y2 slot index))
      else auto_assign_chars y slot abil_type pm rest overwrite
    else auto_assign_chars y slot abil_type pm rest overwrite

/-- The rule loop of `auto_assign_ability_slot`; the `overwrite` flag is
declared outside the loop and so persists across rules. -/
def auto_assign_go (y : You) (slot : Nat) (abil_type : ability_type)
    (abilname : String) :
    List auto_mapping → Bool → Int × You
  | [], _ => ((slot : Int), y)
  | mapping :: rest, overwrite =>
    if !(mapping.pattern_matches abilname) then
      auto_assign_go y slot abil_type abilname rest overwrite
    else
      match auto_assign_chars y slot abil_type mapping.pattern_matches
              mapping.letters overwrite with
      | (_, some r) => r
      | (ow2, none) => auto_assign_go y slot abil_type abilname rest ow2

/-- `auto_assign_ability_slot(slot)`: maybe move the ability at `slot`
to a slot requested by the `auto_ability_letters` option rules. -/
def auto_assign_ability_slot (y : You) (slot : Nat) : Int × You :=
  let abil_type := y.ability_letter_table.getD slot .ABIL_NON_ABILITY
  let abilname := lowercase_string (ability_name abil_type)
  auto_assign_go y slot abil_type abilname y.auto_ability_letters false

/-- The free-slot scan of `find_ability_slot`: claim the first free slot
at or above `first_slot`, else the first free one scanning down from
`first_slot - 1` ("if we cannot find anything else, try a-e"); on
success the claimed slot may be moved by the option rules. -/
def find_ability_slot_scan (y : You) (abil : ability_type)
    (first_slot : Int) : Int × You :=
  match (List.range 52).find? (fun (slot : Nat) => first_slot <= (slot : Int) &&
      y.ability_letter_table.getD slot .ABIL_NON_ABILITY == .ABIL_NON_ABILITY) with
  | some slot =>
    auto_assign_ability_slot
      { y with ability_letter_table := y.ability_letter_table.set slot abil } slot
  | none =>
    match (List.range 52).reverse.find? (fun (slot : Nat) =>
        (slot : Int) <= first_slot - 1 &&
        y.ability_letter_table.getD slot .ABIL_NON_ABILITY == .ABIL_NON_ABILITY) with
    | some slot =>
      auto_assign_ability_slot
        { y with ability_letter_table := y.ability_letter_table.set slot abil } slot
    | none => (-1, y)

/-- `find_ability_slot(abil, firstletter = f)`: reuse an assigned slot,
else claim the first free slot scanning up from the (per-identity
adjusted) start, then down below it; -1 when the table is full. -/
def find_ability_slot (y : You) (abil : ability_type)
    (firstletter : Char := 'f') : Int × You :=
  let had_slot := lookup_ability_slot y abil
  if had_slot > -1 then (had_slot, y)
  else
    let first_slot := letter_to_index firstletter
    -- reserve the first non-god ability slot (f) for Draconian breath
    let first_slot := if y.species == .SP_BASE_DRACONIAN
                         && first_slot >= letter_to_index 'f'
                      then first_slot + 1 else first_slot
    let first_slot := match abil with
      | .ABIL_ELYVILON_LIFESAVING => letter_to_index 'p'
      | .ABIL_KIKU_GIFT_NECRONOMICON => letter_to_index 'N'
      | .ABIL_ZIN_CURE_ALL_MUTATIONS | .ABIL_TSO_BLESS_WEAPON
      | .ABIL_KIKU_BLESS_WEAPON | .ABIL_LUGONU_BLESS_WEAPON
      | .ABIL_PAKELLAS_SUPERCHARGE => letter_to_index 'W'
      | .ABIL_CONVERT_TO_BEOGH => letter_to_index 'Y'
      | .ABIL_RU_SACRIFICE_PURITY | .ABIL_RU_SACRIFICE_WORDS
      | .ABIL_RU_SACRIFICE_DRINK | .ABIL_RU_SACRIFICE_ESSENCE
      | .ABIL_RU_SACRIFICE_HEALTH | .ABIL_RU_SACRIFICE_STEALTH
      | .ABIL_RU_SACRIFICE_ARTIFICE | .ABIL_RU_SACRIFICE_LOVE
      | .ABIL_RU_SACRIFICE_COURAGE | .ABIL_RU_SACRIFICE_ARCANA
      | .ABIL_RU_SACRIFICE_NIMBLENESS | .ABIL_RU_SACRIFICE_DURABILITY
      | .ABIL_RU_SACRIFICE_HAND | .ABIL_RU_SACRIFICE_EXPERIENCE
      | .ABIL_RU_SACRIFICE_SKILL | .ABIL_RU_SACRIFICE_EYE
      | .ABIL_RU_SACRIFICE_RESISTANCE | .ABIL_RU_REJECT_SACRIFICES =>
        letter_to_index 'G'
      | _ => first_slot
    find_ability_slot_scan y abil first_slot

/-- The per-identity failure/invocation switch of `get_talent` (the
`switch (ability)` computing `failure` and `invoc`); the default branch
leaves `failure = -1` (clamped to 0 afterwards) and `invoc = false`. -/
def ability_failure_invoc (y : You) (ability : ability_type) : Int × Bool :=
  match ability with
  -- spell abilities
  | .ABIL_DELAYED_FIREBALL | .ABIL_MUMMY_RESTORATION | .ABIL_STOP_SINGING =>
    (0, false)
  -- species abilities
  | .ABIL_SPIT_POISON =>
    (40 - 10 * y.mut_spit_poison - y.experience_level, false)
  | .ABIL_BREATHE_FIRE | .ABIL_BREATHE_FROST | .ABIL_BREATHE_POISON
  | .ABIL_SPIT_ACID | .ABIL_BREATHE_LIGHTNING | .ABIL_BREATHE_POWER
  | .ABIL_BREATHE_STICKY_FLAME | .ABIL_BREATHE_MEPHITIC =>
    (30 - y.experience_level - (if y.form == .TRAN_DRAGON then 20 else 0), false)
  | .ABIL_BREATHE_STEAM =>
    (20 - y.experience_level - (if y.form == .TRAN_DRAGON then 20 else 0), false)
  | .ABIL_FLY => (42 - 3 * y.experience_level, false)
  | .ABIL_TRAN_BAT => (45 - 2 * y.experience_level, false)
  | .ABIL_RECHARGING => (45 - 2 * y.experience_level, false)
  | .ABIL_DIG | .ABIL_SHAFT_SELF => (0, false)
  -- demonic powers
  | .ABIL_HELLFIRE => (50 - y.experience_level, false)
  | .ABIL_BLINK =>
    (48 - 17 * y.mut_blink - Int.tdiv y.experience_level 2, false)
  -- transformation abilities
  | .ABIL_END_TRANSFORMATION => (0, false)
  -- item abilities
  | .ABIL_EVOKE_TURN_INVISIBLE => (60 - y.skill .SK_EVOCATIONS 2, false)
  | .ABIL_EVOKE_TURN_VISIBLE | .ABIL_STOP_FLYING => (0, false)
  | .ABIL_EVOKE_FLIGHT | .ABIL_EVOKE_BLINK => (40 - y.skill .SK_EVOCATIONS 2, false)
  | .ABIL_EVOKE_BERSERK | .ABIL_EVOKE_FOG => (50 - y.skill .SK_EVOCATIONS 2, false)
  -- invocations with no fail rate
  | .ABIL_ZIN_CURE_ALL_MUTATIONS | .ABIL_ZIN_DONATE_GOLD
  | .ABIL_KIKU_BLESS_WEAPON | .ABIL_KIKU_GIFT_NECRONOMICON
  | .ABIL_TSO_BLESS_WEAPON | .ABIL_LUGONU_BLESS_WEAPON
  | .ABIL_ELYVILON_LIFESAVING | .ABIL_TROG_BURN_SPELLBOOKS
  | .ABIL_ASHENZARI_TRANSFER_KNOWLEDGE | .ABIL_ASHENZARI_END_TRANSFER
  | .ABIL_ASHENZARI_SCRYING | .ABIL_BEOGH_GIFT_ITEM
  | .ABIL_JIYVA_CALL_JELLY | .ABIL_JIYVA_CURE_BAD_MUTATION
  | .ABIL_JIYVA_JELLY_PARALYSE | .ABIL_GOZAG_POTION_PETITION
  | .ABIL_GOZAG_CALL_MERCHANT | .ABIL_GOZAG_BRIBE_BRANCH
  | .ABIL_RU_DRAW_OUT_POWER | .ABIL_RU_POWER_LEAP | .ABIL_RU_APOCALYPSE
  | .ABIL_RU_SACRIFICE_PURITY | .ABIL_RU_SACRIFICE_WORDS
  | .ABIL_RU_SACRIFICE_DRINK | .ABIL_RU_SACRIFICE_ESSENCE
  | .ABIL_RU_SACRIFICE_HEALTH | .ABIL_RU_SACRIFICE_STEALTH
  | .ABIL_RU_SACRIFICE_ARTIFICE | .ABIL_RU_SACRIFICE_LOVE
  | .ABIL_RU_SACRIFICE_COURAGE | .ABIL_RU_SACRIFICE_ARCANA
  | .ABIL_RU_SACRIFICE_NIMBLENESS | .ABIL_RU_SACRIFICE_DURABILITY
  | .ABIL_RU_SACRIFICE_HAND | .ABIL_RU_SACRIFICE_EXPERIENCE
  | .ABIL_RU_SACRIFICE_SKILL | .ABIL_RU_SACRIFICE_EYE
  | .ABIL_RU_SACRIFICE_RESISTANCE | .ABIL_RU_REJECT_SACRIFICES
  | .ABIL_PAKELLAS_SUPERCHARGE | .ABIL_STOP_RECALL
  | .ABIL_RENOUNCE_RELIGION | .ABIL_CONVERT_TO_BEOGH => (0, true)
  -- Trog and Jiyva abilities, only based on piety
  | .ABIL_TROG_BERSERK => (0, true)
  | .ABIL_TROG_REGEN_MR => (y.piety_breakpoint 2 - y.piety, true)
  | .ABIL_TROG_BROTHERS_IN_ARMS => (y.piety_breakpoint 5 - y.piety, true)
  | .ABIL_JIYVA_SLIMIFY => (90 - Int.tdiv y.piety 2, true)
  -- other invocations, based on piety and skill
  | .ABIL_ELYVILON_PURIFICATION =>
    (20 - Int.tdiv y.piety 20 - y.skill .SK_INVOCATIONS 5, true)
  | .ABIL_ZIN_RECITE | .ABIL_BEOGH_RECALL_ORCISH_FOLLOWERS
  | .ABIL_OKAWARU_HEROISM | .ABIL_ELYVILON_LESSER_HEALING
  | .ABIL_LUGONU_ABYSS_EXIT | .ABIL_FEDHAS_SUNLIGHT
  | .ABIL_FEDHAS_EVOLUTION | .ABIL_DITHMENOS_SHADOW_STEP =>
    (30 - Int.tdiv y.piety 20 - y.skill .SK_INVOCATIONS 6, true)
  | .ABIL_YRED_ANIMATE_REMAINS | .ABIL_YRED_ANIMATE_DEAD
  | .ABIL_YRED_INJURY_MIRROR | .ABIL_CHEIBRIADOS_TIME_BEND =>
    (40 - Int.tdiv y.piety 20 - y.skill .SK_INVOCATIONS 4, true)
  | .ABIL_PAKELLAS_QUICK_CHARGE =>
    (40 - Int.tdiv y.piety 25 - y.skill .SK_EVOCATIONS 5, true)
  | .ABIL_ZIN_VITALISATION | .ABIL_TSO_DIVINE_SHIELD | .ABIL_BEOGH_SMITING
  | .ABIL_SIF_MUNA_FORGET_SPELL | .ABIL_MAKHLEB_MINOR_DESTRUCTION
  | .ABIL_MAKHLEB_LESSER_SERVANT_OF_MAKHLEB | .ABIL_ELYVILON_GREATER_HEALING
  | .ABIL_ELYVILON_HEAL_OTHER | .ABIL_LUGONU_BEND_SPACE
  | .ABIL_FEDHAS_PLANT_RING | .ABIL_QAZLAL_UPHEAVAL =>
    (40 - Int.tdiv y.piety 20 - y.skill .SK_INVOCATIONS 5, true)
  | .ABIL_KIKU_RECEIVE_CORPSES =>
    (40 - Int.tdiv y.piety 20 - y.skill .SK_NECROMANCY 5, true)
  | .ABIL_SIF_MUNA_CHANNEL_ENERGY =>
    (40 - Int.tdiv y.piety 20 - y.skill .SK_INVOCATIONS 2, true)
  | .ABIL_YRED_RECALL_UNDEAD_SLAVES =>
    (50 - Int.tdiv y.piety 20 - y.skill .SK_INVOCATIONS 4, true)
  | .ABIL_PAKELLAS_DEVICE_SURGE =>
    (40 - Int.tdiv y.piety 20 - y.skill .SK_EVOCATIONS 5, true)
  | .ABIL_ZIN_IMPRISON | .ABIL_LUGONU_BANISH
  | .ABIL_CHEIBRIADOS_DISTORTION | .ABIL_QAZLAL_ELEMENTAL_FORCE =>
    (60 - Int.tdiv y.piety 20 - y.skill .SK_INVOCATIONS 5, true)
  | .ABIL_KIKU_TORMENT =>
    (60 - Int.tdiv y.piety 20 - y.skill .SK_NECROMANCY 5, true)
  | .ABIL_MAKHLEB_MAJOR_DESTRUCTION | .ABIL_FEDHAS_SPAWN_SPORES
  | .ABIL_YRED_DRAIN_LIFE | .ABIL_CHEIBRIADOS_SLOUCH | .ABIL_OKAWARU_FINESSE =>
    (60 - Int.tdiv y.piety 25 - y.skill .SK_INVOCATIONS 4, true)
  | .ABIL_TSO_CLEANSING_FLAME | .ABIL_LUGONU_CORRUPT
  | .ABIL_FEDHAS_RAIN | .ABIL_QAZLAL_DISASTER_AREA =>
    (70 - Int.tdiv y.piety 25 - y.skill .SK_INVOCATIONS 4, true)
  | .ABIL_ZIN_SANCTUARY | .ABIL_TSO_SUMMON_DIVINE_WARRIOR
  | .ABIL_YRED_ENSLAVE_SOUL | .ABIL_ELYVILON_DIVINE_VIGOUR
  | .ABIL_LUGONU_ABYSS_ENTER | .ABIL_CHEIBRIADOS_TIME_STEP
  | .ABIL_DITHMENOS_SHADOW_FORM =>
    (80 - Int.tdiv y.piety 25 - y.skill .SK_INVOCATIONS 4, true)
  | .ABIL_MAKHLEB_GREATER_SERVANT_OF_MAKHLEB =>
    (90 - Int.tdiv y.piety 5 - y.skill .SK_INVOCATIONS 2, true)
  | .ABIL_NEMELEX_STACK_FIVE =>
    (80 - Int.tdiv y.piety 25 - y.skill .SK_EVOCATIONS 4, true)
  | .ABIL_NEMELEX_DEAL_FOUR =>
    (70 - Int.tdiv (y.piety * 2) 45 - Int.tdiv (y.skill .SK_EVOCATIONS 9) 2, true)
  | .ABIL_NEMELEX_TRIPLE_DRAW =>
    (60 - Int.tdiv y.piety 20 - y.skill .SK_EVOCATIONS 5, true)
  | _ => (-1, false)

/-- `get_talent(ability, check_confused)`: resolve the placeholder, bail
out (as "no ability") when too confused, assign a hotkey via the slot
table, compute failure and the invocation flag, and clamp failure into
0..100. The leading debug `ASSERT(ability != ABIL_NON_ABILITY)` is not
embedded; theorems about this function carry it as a hypothesis. -/
def get_talent (y : You) (ability : ability_type) (check_confused : Bool) :
    talent × You :=
  -- placeholder handling, part 1
  let which := fixup_ability y ability
  let abil := get_ability_def which
  if check_confused && y.confused && !(testbits abil.flags abflag.CONF_OK) then
    (talent.mk .ABIL_NON_ABILITY 0 0 false, y)
  else
    let fs := find_ability_slot y abil.ability 'f'
    let index := fs.1
    let y2 := fs.2
    let hotkey := if index >= 0 then index_to_letter index else 0
    let fi := ability_failure_invoc y2 ability
    let failure := if fi.1 < 0 then 0 else fi.1
    let failure := if failure > 100 then 100 else failure
    (talent.mk which hotkey failure fi.2, y2)

/-- `_add_talent(vec, ability, check_confused)`: compute the talent and
push it unless it resolved to "no ability". -/
def add_talent (vec : List talent) (y : You) (ability : ability_type)
    (check_confused : Bool) : List talent × You :=
  let t := get_talent y ability check_confused
  (if t.1.which != .ABIL_NON_ABILITY then vec ++ [t.1] else vec, t.2)

/-- One guarded `_add_talent` call inside `your_talents` (each source
`if (pred) _add_talent(...)` becomes one `cond_add` step). -/
def cond_add (s : List talent × You) (c : Bool) (ability : ability_type)
    (check_confused : Bool) : List talent × You :=
  if c then add_talent s.1 s.2 ability check_confused else s

/-- `get_god_abilities(ignore_silence, ignore_piety, ignore_penance)`:
Ru sacrifices, a pending knowledge-transfer end, then — unless silenced —
the god powers filtered by rank/capstone/piety/penance, with redirect
rules applied. (The god-power table itself is external, `y.god_powers`;
debug `ASSERT`s are not embedded.) -/
def get_god_abilities (y : You)
    (ignore_silence ignore_piety ignore_penance : Bool) : List ability_type :=
  let abilities : List ability_type :=
    if y.worship_ru then
      y.available_sacrifices ++
        (if !y.available_sacrifices.isEmpty then [.ABIL_RU_REJECT_SACRIFICES]
         else [])
    else []
  let abilities := abilities ++
    (if y.transfer_skill_points > 0 then [.ABIL_ASHENZARI_END_TRANSFER] else [])
  if !ignore_silence && y.silenced then abilities
  else
    abilities ++ y.god_powers.filterMap (fun power =>
      if power.abil == .ABIL_NON_ABILITY then none
      else
        let abil := fixup_ability y power.abil
        if (power.rank <= 0 || (power.rank == 7 && y.can_do_capstone)
              || y.piety_rank >= power.rank || ignore_piety)
            && (!y.player_under_penance || power.rank == -1 || ignore_penance)
        then some abil else none)

/-- Species-, mutation- and form-granted additions of `your_talents`
(everything before the religious section). -/
def your_talents_part1 (y : You) (check_confused include_unusable : Bool) :
    List talent × You :=
  let s : List talent × You := ([], y)
  let s := cond_add s (s.2.mut_mummy_restoration != 0) .ABIL_MUMMY_RESTORATION
             check_confused
  let s := cond_add s (s.2.species == .SP_DEEP_DWARF) .ABIL_RECHARGING
             check_confused
  let s := cond_add s (s.2.species == .SP_FORMICID
             && (s.2.form != .TRAN_TREE || include_unusable)) .ABIL_DIG
             check_confused
  let s := cond_add s (s.2.species == .SP_FORMICID
             && (s.2.form != .TRAN_TREE || include_unusable)
             && (!s.2.game_is_sprint || s.2.brdepth_where > 1)) .ABIL_SHAFT_SELF
             check_confused
  -- Spit Poison, possibly upgraded to Breathe Poison
  let s := cond_add s (s.2.mut_spit_poison == 3) .ABIL_BREATHE_POISON
             check_confused
  let s := cond_add s (s.2.mut_spit_poison != 3 && s.2.mut_spit_poison != 0)
             .ABIL_SPIT_POISON check_confused
  let s := cond_add s (s.2.species_is_draconian
             && (!s.2.form_changed_physiology || s.2.form == .TRAN_DRAGON)
             && s.2.draconian_breath != .ABIL_NON_ABILITY) s.2.draconian_breath
             check_confused
  let s := cond_add s (s.2.species == .SP_VAMPIRE && s.2.experience_level >= 3
             && s.2.hunger_state <= HS_SATIATED && s.2.form != .TRAN_BAT)
             .ABIL_TRAN_BAT check_confused
  let s := cond_add s ((s.2.mut_tengu_flight != 0 && !s.2.airborne)
             || (s.2.racial_permanent_flight && !s.2.attr_perm_flight
                  && s.2.species != .SP_DJINNI)) .ABIL_FLY check_confused
  let s := cond_add s (s.2.attr_perm_flight && s.2.racial_permanent_flight)
             .ABIL_STOP_FLYING check_confused
  -- mutations
  let s := cond_add s (s.2.mut_hurl_hellfire != 0) .ABIL_HELLFIRE check_confused
  let s := cond_add s (s.2.dur_transformation != 0
             && !s.2.transform_uncancellable) .ABIL_END_TRANSFORMATION
             check_confused
  let s := cond_add s (s.2.mut_blink != 0) .ABIL_BLINK check_confused
  s

/-- Religious additions of `your_talents`: each god-granted ability,
then renouncing religion, then converting to Beogh. -/
def your_talents_part2 (check_confused include_unusable : Bool)
    (s : List talent × You) : List talent × You :=
  let god_abils := get_god_abilities s.2 include_unusable false include_unusable
  let s := god_abils.foldl
             (fun s abil => add_talent s.1 s.2 abil check_confused) s
  let s := cond_add s (!s.2.worship_no_god) .ABIL_RENOUNCE_RELIGION
             check_confused
  let s := cond_add s (s.2.level_state_beogh && s.2.can_convert_to_beogh)
             .ABIL_CONVERT_TO_BEOGH check_confused
  s

/-- Late additions of `your_talents`: dragon-form breath, unreleased
delayed fireball, stopping a song, and item evocations. -/
def your_talents_part3 (check_confused include_unusable : Bool)
    (s : List talent × You) : List talent × You :=
  let s := cond_add s (s.2.species != .SP_RED_DRACONIAN
             && s.2.form == .TRAN_DRAGON && s.2.dragon_form_fire)
             .ABIL_BREATHE_FIRE check_confused
  let s := cond_add s s.2.attr_delayed_fireball .ABIL_DELAYED_FIREBALL
             check_confused
  let s := cond_add s (s.2.dur_song_of_slaying != 0) .ABIL_STOP_SINGING
             check_confused
  -- evocations from items
  let s := cond_add s (s.2.scan_artefacts_blink && s.2.mut_no_artifice == 0)
             .ABIL_EVOKE_BLINK check_confused
  let s := cond_add s (s.2.scan_artefacts_fog && s.2.mut_no_artifice == 0)
             .ABIL_EVOKE_FOG check_confused
  let s := cond_add s (s.2.evokable_berserk && s.2.mut_no_artifice == 0)
             .ABIL_EVOKE_BERSERK check_confused
  let s := cond_add s (s.2.evokable_invis && !s.2.attr_invis_uncancellable
             && s.2.mut_no_artifice == 0 && s.2.dur_invis != 0)
             .ABIL_EVOKE_TURN_VISIBLE check_confused
  let s := cond_add s (s.2.evokable_invis && !s.2.attr_invis_uncancellable
             && s.2.mut_no_artifice == 0 && s.2.dur_invis == 0)
             .ABIL_EVOKE_TURN_INVISIBLE check_confused
  let s := cond_add s (s.2.evokable_flight && s.2.mut_no_artifice == 0
             && (!s.2.permanent_flight || !s.2.racial_permanent_flight)
             && (!s.2.airborne
                  || (!s.2.attr_perm_flight && s.2.wearing_ego_flying)))
             .ABIL_EVOKE_FLIGHT check_confused
  let s := cond_add s (s.2.evokable_flight && s.2.mut_no_artifice == 0
             && (!s.2.permanent_flight || !s.2.racial_permanent_flight)
             && s.2.airborne && !s.2.attr_flight_uncancellable)
             .ABIL_STOP_FLYING check_confused
  s

/-- The inner free-hotkey scan of `your_talents`:
`for (int k = 51; k >= 0; ++k)` — k starts at 51 and is incremented, the
candidate key is `index_to_letter(k)` but the raw `k` is what gets
assigned on success. The C++ loop can only stop by finding a key (its
guard stays true until signed overflow); the fuel argument bounds the
embedded recursion and is chosen large enough that exhaustion is
unreachable for table-sized talent lists. -/
def hotkey_search (ts : List talent) : Nat → Nat → Option Nat
  | 0, _ => none
  | fuel + 1, k =>
    let kkey := index_to_letter (k : Int)
    if ts.all (fun other => other.hotkey != kkey) then some k
    else hotkey_search ts fuel (k + 1)

/-- The hotkey-fixing pass at the end of `your_talents`: for each talent
in order, reuse its table slot's letter, else claim a "free" key via
`hotkey_search`, storing the raw index as the hotkey and pointing the
table entry at the talent. -/
def hotkey_pass_from : Nat → Nat → List talent × You → List talent × You
  | 0, _, s => s
  | fuel + 1, i, (ts, y) =>
    match ts.get? i with
    | none => (ts, y)
    | some tal =>
      let index := lookup_ability_slot y tal.which
      if index > -1 then
        hotkey_pass_from fuel (i + 1)
          (ts.set i { tal with hotkey := index_to_letter index }, y)
      else
        match hotkey_search ts (52 + ts.length + 1) 51 with
        | some k =>
          hotkey_pass_from fuel (i + 1)
            (ts.set i { tal with hotkey := (k : Int) },
             { y with ability_letter_table :=
                 y.ability_letter_table.set k tal.which })
        | none => hotkey_pass_from fuel (i + 1) (ts, y)

/-- `your_talents(check_confused, include_unusable)`: all currently
offered talents, in source order, followed by the hotkey-fixing pass. -/
def your_talents (y : You) (check_confused include_unusable : Bool) :
    List talent × You :=
  let s := your_talents_part3 check_confused include_unusable
             (your_talents_part2 check_confused include_unusable
               (your_talents_part1 y check_confused include_unusable))
  hotkey_pass_from s.1.length 0 s

/-- Modelled from the spec: `dec_mp` of the actor-state mutator surface
(deduct from the current magic pool). -/
def dec_mp (y : You) (amount : Nat) : You :=
  { y with magic_points := y.magic_points - amount }

/-- Modelled from the spec: `rot_mp` — a permanent cost also reduces the
magic pool's maximum. -/
def rot_mp (y : You) (amount : Int) : You :=
  { y with max_magic_points := y.max_magic_points - amount }

/-- Modelled from the spec: `dec_hp` (deduct from current hit points). -/
def dec_hp (y : You) (amount : Int) : You :=
  { y with hp := y.hp - amount }

/-- Modelled from the spec: `rot_hp` — a permanent cost also reduces the
hit-point maximum. -/
def rot_hp (y : You) (amount : Int) : You :=
  { y with hp_max := y.hp_max - amount }

/-- Modelled from the spec: `make_hungry` (deduct the consumable
resource). -/
def make_hungry (y : You) (amount : Int) : You :=
  { y with hunger := y.hunger - amount }

/-- Modelled from the spec: `lose_piety` (deduct devotion). -/
def lose_piety (y : You) (amount : Int) : You :=
  { y with piety := y.piety - amount }

/-- Modelled from the spec: `div_rand_round` of the RNG surface —
division with randomized rounding; whether the fractional part rounds up
is this attempt's `rand_round_up` draw. -/
def div_rand_round (y : You) (num den : Int) : Int :=
  Int.tdiv num den + (if y.rand_round_up && Int.tmod num den != 0 then 1 else 0)

/-- `_scale_piety_cost(abil, original_cost)`: 2.5x piety for two
abilities in sprint mode. -/
def scale_piety_cost (y : You) (abil : ability_type) (original_cost : Int) :
    Int :=
  if y.game_is_sprint && (abil == .ABIL_TROG_BROTHERS_IN_ARMS
       || abil == .ABIL_MAKHLEB_GREATER_SERVANT_OF_MAKHLEB)
  then div_rand_round y (original_cost * 5) 2
  else original_cost

/-- `_pay_ability_costs(abil)`: set turn consumption (instant abilities
keep the turn; the elapsed-time bookkeeping they also reset is not part
of the modelled state), then deduct magic (plus permanent magic), hit
points (plus permanent hit points), food and piety, each only when its
cost is nonzero. -/
def pay_ability_costs (y : You) (abil : ability_def) : You :=
  let y := if testbits abil.flags abflag.INSTANT then { y with turn_is_over := false }
           else { y with turn_is_over := true }
  let food_cost : Int := (abil.food_cost : Int) + y.food_rand
  let piety_cost := scale_piety_cost y abil.ability
                      (abil.piety_cost.cost y.piety_draws)
  let hp_cost := abil.hp_cost.cost y.hp_max
  let y := if abil.mp_cost != 0 then
             (let y2 := dec_mp y abil.mp_cost
              if testbits abil.flags abflag.PERMANENT_MP then rot_mp y2 1 else y2)
           else y
  let y := if abil.hp_cost.nonzero then
             (let y2 := dec_hp y hp_cost
              if testbits abil.flags abflag.PERMANENT_HP then rot_hp y2 hp_cost
              else y2)
           else y
  let y := if food_cost != 0 then make_hungry y food_cost else y
  let y := if piety_cost != 0 then lose_piety y piety_cost else y
  y

/-- Which abilities skip the hunger check in `activate_talent`. -/
def ability_skip_hunger_check (a : ability_type) : Bool :=
  match a with
  | .ABIL_RENOUNCE_RELIGION | .ABIL_CONVERT_TO_BEOGH | .ABIL_STOP_FLYING
  | .ABIL_EVOKE_TURN_VISIBLE | .ABIL_END_TRANSFORMATION
  | .ABIL_DELAYED_FIREBALL | .ABIL_STOP_SINGING | .ABIL_MUMMY_RESTORATION
  | .ABIL_TRAN_BAT | .ABIL_ASHENZARI_END_TRANSFER => true
  | _ => false

/-- The early-return gates of `activate_talent`, in source order (the
guarded ability checks form an else-if chain over `tal.which`, so the
disjuncts are mutually exclusive where they overlap). Every such return
calls `crawl_state.zero_turns_taken()` and yields `false`. -/
def activate_early_abort (y : You) (tal : talent) : Bool :=
  let hungerCheck := !(ability_skip_hunger_check tal.which)
  let abil := get_ability_def tal.which
  let hpcost := abil.hp_cost.cost y.hp_max
  y.berserk
  || (tal.which == .ABIL_STOP_FLYING && y.feat_dangerous_stop_flying)
  || (tal.which == .ABIL_TRAN_BAT && !y.form_stat_safe_bat)
  || (tal.which == .ABIL_END_TRANSFORMATION
       && (y.feat_dangerous_end_transform || !y.form_stat_safe_none))
  || ((tal.which == .ABIL_EVOKE_BERSERK || tal.which == .ABIL_TROG_BERSERK)
       && !y.can_go_berserk)
  || ((tal.which == .ABIL_EVOKE_FLIGHT || tal.which == .ABIL_TRAN_BAT
        || tal.which == .ABIL_FLY) && !y.flight_allowed)
  || (hungerCheck && !y.is_undead && !y.foodless
       && y.hunger_state <= HS_STARVING)
  || (abil.mp_cost > 0 && !(y.enough_mp abil.mp_cost))
  || (hpcost > 0 && !(y.enough_hp hpcost))
  || !(y.check_ability_possible abil.ability hungerCheck)

/-- `activate_talent(tal)`: after the early gates, roll for failure
(`random2avg(100, 3) < tal.fail`, the roll being this attempt's
`fail_roll` draw), dispatch the effect, and switch on the outcome:
costs are paid and `true` returned only for `SPRET_SUCCESS`; `SPRET_FAIL`
consumes the turn and returns `false`; `SPRET_ABORT` zeroes the turn and
returns `false`; `SPRET_NONE` is `die("Weird ability return type")`,
embedded as `none`. (`practise` and `count_action` touch no modelled
state.) -/
def activate_talent (y : You) (tal : talent) : Option (You × Bool) :=
  if activate_early_abort y tal then some ({ y with turns_zeroed := true }, false)
  else
    let abil := get_ability_def tal.which
    let fail := y.fail_roll < tal.fail
    match y.do_ability abil.ability fail with
    | .SPRET_SUCCESS => some (pay_ability_costs y abil, true)
    | .SPRET_FAIL => some ({ y with turn_is_over := true }, false)
    | .SPRET_ABORT => some ({ y with turns_zeroed := true }, false)
    | .SPRET_NONE => none

/-- The outcome of one attempt, in the spec's terms: the early gates of
`activate_talent` are aborts, and otherwise the effect dispatch decides. -/
def attempt_outcome (y : You) (tal : talent) : spret_type :=
  if activate_early_abort y tal then .SPRET_ABORT
  else y.do_ability (get_ability_def tal.which).ability (y.fail_roll < tal.fail)

/-- A concrete baseline actor used by witnesses and counterexamples: an
unremarkable state (no statuses, empty slot table, permissive checks),
with each scenario overriding just the fields it needs. -/
def baseYou : You where
  magic_points := 10
  max_magic_points := 10
  hp := 20
  hp_max := 20
  hunger := 5000
  piety := 30
  turn_is_over := false
  turns_zeroed := false
  ability_letter_table := List.replicate 52 .ABIL_NON_ABILITY
  in_good_standing_yred_2 := false
  recall_list_empty := true
  is_lifeless_undead := false
  species := .SP_OTHER
  brdepth_abyss := 5
  confused := false
  experience_level := 1
  mut_spit_poison := 0
  mut_blink := 0
  form := .TRAN_NONE
  skill := fun _ _ => 0
  piety_breakpoint := fun i => 30 * i + 10
  auto_ability_letters := []
  mut_mummy_restoration := 0
  mut_tengu_flight := 0
  mut_hurl_hellfire := 0
  mut_no_artifice := 0
  game_is_sprint := false
  brdepth_where := 5
  species_is_draconian := false
  form_changed_physiology := false
  draconian_breath := .ABIL_NON_ABILITY
  hunger_state := 5
  airborne := false
  racial_permanent_flight := false
  attr_perm_flight := false
  dur_transformation := 0
  transform_uncancellable := false
  worship_no_god := true
  level_state_beogh := false
  can_convert_to_beogh := false
  dragon_form_fire := false
  attr_delayed_fireball := false
  dur_song_of_slaying := 0
  scan_artefacts_blink := false
  scan_artefacts_fog := false
  evokable_berserk := false
  evokable_invis := false
  attr_invis_uncancellable := false
  dur_invis := 0
  evokable_flight := false
  permanent_flight := false
  attr_flight_uncancellable := false
  wearing_ego_flying := false
  worship_ru := false
  available_sacrifices := []
  transfer_skill_points := 0
  silenced := false
  god_powers := []
  can_do_capstone := false
  piety_rank := 0
  player_under_penance := false
  berserk := false
  feat_dangerous_stop_flying := false
  form_stat_safe_bat := true
  feat_dangerous_end_transform := false
  form_stat_safe_none := true
  can_go_berserk := true
  flight_allowed := true
  is_undead := false
  foodless := false
  enough_mp := fun _ => true
  enough_hp := fun _ => true
  check_ability_possible := fun _ _ => true
  fail_roll := 50
  food_rand := 3
  piety_draws := [0]
  rand_round_up := false
  do_ability := fun _ _ => .SPRET_SUCCESS

/-- Spec-side definition (for comparison only): ceiling division, the
rounding the spec ascribes to scaling costs. -/
def spec_ceil_div (a b : Int) : Int := Int.tdiv (a + b - 1) b

/-- Spec-side definition (for comparison only): the spec's ordering
guarantee for the offered-actions sequence — every non-faith action
appears before every faith (invocation-class) action. -/
def nonfaith_first : List talent → Bool
  | [] => true
  | t :: rest =>
    if t.is_invocation then rest.all (fun u => u.is_invocation)
    else nonfaith_first rest

/-- `y2` differs from `y1` at most in the persistent slot table: the
only field of the actor state that slot assignment mutates. -/
def sameExceptTable (y1 y2 : You) : Prop :=
  y2 = { y1 with ability_letter_table := y2.ability_letter_table }

/-- A failed attempt: the baseline actor whose effect dispatch reports
`SPRET_FAIL` for every ability. -/
def yFail : You := { baseYou with do_ability := fun _ _ => .SPRET_FAIL }

/-- A Spit Poison talent as handed to `activate_talent` (40 food cost in
the registry, so settlement would charge hunger). -/
def talSpit : talent := talent.mk .ABIL_SPIT_POISON 0 0 false

/-- A worshipper (of a god granting no listed powers) holding an
unreleased delayed fireball: offered Renounce Religion (faith) before
Delayed Fireball (non-faith). -/
def yC6 : You :=
  { baseYou with worship_no_god := false, attr_delayed_fireball := true }

/-- An actor with two slotless abilities (innate restoration and Deep
Dwarf recharging) and a slot table fully occupied by stale entries, so
both talents take the buggy free-hotkey path. -/
def yC7 : You :=
  { baseYou with
      mut_mummy_restoration := 1,
      species := .SP_DEEP_DWARF,
      ability_letter_table := List.replicate 52 .ABIL_BREATHE_FIRE }

/-- C3 (counterexample): with magnitude 21 and maximum 100 the code
computes `(21*100+500)/1000 = 2`, but the claimed ceiling is 3. -/
theorem C3_counterexample :
    (scaling_cost.ofInt 21).cost 100 = 2 ∧
    spec_ceil_div (21 * 100) 1000 = 3 ∧
    (scaling_cost.ofInt 21).cost 100 ≠ spec_ceil_div (21 * 100) 1000 := by
  refine ⟨by decide, by decide, by decide⟩

/-- C3 (amended): a Scaling cost with negative stored value is the fixed
cost `-value` independent of the maximum; otherwise (value, max ≥ 0) the
cost is `value * max / 1000` rounded to the nearest integer with halves
rounding up — characterized by `1000*cost ≤ value*max + 500 < 1000*cost
+ 1000` — not the ceiling. -/
theorem C3_theorem (v mx : Int) :
    (v < 0 → (scaling_cost.ofInt v).cost mx = -v) ∧
    (0 ≤ v → 0 ≤ mx →
      1000 * ((scaling_cost.ofInt v).cost mx) ≤ v * mx + 500 ∧
      v * mx + 500 < 1000 * ((scaling_cost.ofInt v).cost mx) + 1000) := by
  constructor
  · intro hv
    simp [scaling_cost.cost, scaling_cost.ofInt, hv]
  · intro hv hm
    have hnum : (0 : Int) ≤ v * mx + 500 := by positivity
    have hne : ¬ v < 0 := by omega
    simp only [scaling_cost.cost, scaling_cost.ofInt, hne, if_false]
    rw [Int.tdiv_eq_ediv hnum (by norm_num)]
    have h1 := Int.ediv_add_emod (v * mx + 500) 1000
    have h2 := Int.emod_nonneg (v * mx + 500) (b := 1000) (by norm_num)
    have h3 := Int.emod_lt_of_pos (v * mx + 500) (b := 1000) (by norm_num)
    omega

/-- C3 (witness): the amended characterization at magnitude 21, maximum
100 (cost 2: 2000 ≤ 2600 < 3000), and the fixed branch at -5. -/
theorem C3_witness :
    (1000 * ((scaling_cost.ofInt 21).cost 100) ≤ 21 * 100 + 500 ∧
      21 * 100 + 500 < 1000 * ((scaling_cost.ofInt 21).cost 100) + 1000) ∧
    (scaling_cost.ofInt (-5)).cost 77 = -(-5) :=
  ⟨(C3_theorem 21 100).2 (by decide) (by decide),
   (C3_theorem (-5) 77).1 (by decide)⟩

/-- C9: a Discrete cost with `add = 0` always evaluates to `base`, and a
Discrete cost built by `range(lo, hi)` with `lo ≤ hi` always evaluates
within `[lo, hi]` (the single averaged draw lies in `[0, hi-lo]`). -/
theorem C9_theorem :
    (∀ (c : generic_cost) (draws : List Int), c.add = 0 → c.cost draws = c.base) ∧
    (∀ (lo hi : Int) (draws : List Int), lo ≤ hi → draws.length = 1 →
      (∀ d ∈ draws, 0 ≤ d ∧ d < hi - lo + 1) →
      lo ≤ (generic_cost.range lo hi).cost draws ∧
      (generic_cost.range lo hi).cost draws ≤ hi) := by
  constructor
  · intro c draws h
    simp [generic_cost.cost, h]
  · intro lo hi draws hle hlen hmem
    match draws, hlen with
    | [d], _ =>
      have hd := hmem d (by simp)
      have hadd : (0 : Int) < hi - lo + 1 := by omega
      simp only [generic_cost.cost, generic_cost.range, random2avg,
        List.sum_cons, List.sum_nil, add_zero, Int.tdiv_one, if_pos hadd]
      omega

/-- C9 (witness): `fixed(5)` costs 5 on the empty stream, and
`range(3,5)` with draw 2 costs within `[3,5]`. -/
theorem C9_witness :
    (generic_cost.fixed 5).cost [] = (generic_cost.fixed 5).base ∧
    (3 ≤ (generic_cost.range 3 5).cost [2] ∧
      (generic_cost.range 3 5).cost [2] ≤ 5) :=
  ⟨C9_theorem.1 (generic_cost.fixed 5) [] rfl,
   C9_theorem.2 3 5 [2] (by decide) (by decide) (by decide)⟩

/-- C10: the one-argument Discrete constructor stores additive term
`(n+1)/2 + 1` for nonzero `n` and 0 for `n = 0`; hence for `n = 0` the
cost is always 0 and for `n > 0` the cost lies in `[n, n + (n+1)/2]`. -/
theorem C10_theorem (n : Int) (draws : List Int) :
    ((generic_cost.ofInt n).add
        = if n = 0 then 0 else Int.tdiv (n + 1) 2 + 1) ∧
    (n = 0 → (generic_cost.ofInt n).cost draws = 0) ∧
    (0 < n → draws.length = 1 →
      (∀ d ∈ draws, 0 ≤ d ∧ d < Int.tdiv (n + 1) 2 + 1) →
      n ≤ (generic_cost.ofInt n).cost draws ∧
      (generic_cost.ofInt n).cost draws ≤ n + Int.tdiv (n + 1) 2) := by
  refine ⟨rfl, ?_, ?_⟩
  · intro h
    simp [generic_cost.cost, generic_cost.ofInt, h]
  · intro hn hlen hmem
    match draws, hlen with
    | [d], _ =>
      have hd := hmem d (by simp)
      have hne : ¬ n = 0 := by omega
      have hpos : (0 : Int) < Int.tdiv (n + 1) 2 + 1 := by
        have htd : (0 : Int) ≤ Int.tdiv (n + 1) 2 := by
          rw [Int.tdiv_eq_ediv (by omega) (by norm_num)]
          exact Int.ediv_nonneg (by omega) (by norm_num)
        omega
      simp only [generic_cost.cost, generic_cost.ofInt, random2avg,
        List.sum_cons, List.sum_nil, add_zero, Int.tdiv_one, if_neg hne,
        if_pos hpos]
      omega

/-- C10 (witness): `generic_cost(4)` has add `(4+1)/2+1 = 3`, and with
draw 2 the cost 6 lies in `[4, 6]`; `generic_cost(0)` always costs 0. -/
theorem C10_witness :
    ((generic_cost.ofInt 4).add = if (4 : Int) = 0 then 0
        else Int.tdiv ((4 : Int) + 1) 2 + 1) ∧
    (generic_cost.ofInt 0).cost [9] = 0 ∧
    (4 ≤ (generic_cost.ofInt 4).cost [2] ∧
      (generic_cost.ofInt 4).cost [2] ≤ 4 + Int.tdiv (4 + 1) 2) :=
  ⟨(C10_theorem 4 [2]).1, (C10_theorem 0 [9]).2.1 rfl,
   (C10_theorem 4 [2]).2.2 (by decide) (by decide) (by decide)⟩

/-- C8: registry lookup is total — for a registered identity it returns
a registry entry carrying exactly that identity, for an unregistered one
it returns the first entry, and the first entry is the "no action"
sentinel. -/
theorem C8_theorem (a : ability_type) :
    ((∃ d ∈ Ability_List, d.ability = a) →
      get_ability_def a ∈ Ability_List ∧ (get_ability_def a).ability = a) ∧
    ((¬ ∃ d ∈ Ability_List, d.ability = a) →
      get_ability_def a = Ability_List.headI) ∧
    Ability_List.headI.ability = .ABIL_NON_ABILITY := by
  refine ⟨?_, ?_, rfl⟩
  · rintro ⟨d, hd, hda⟩
    cases h : Ability_List.find? (fun ab_def => ab_def.ability == a) with
    | none =>
      exact absurd (by simpa using hda)
        (by simpa using List.find?_eq_none.mp h d hd)
    | some e =>
      have hmem := List.mem_of_find?_eq_some h
      have hp := List.find?_some h
      have he : get_ability_def a = e := by simp [get_ability_def, h]
      rw [he]
      exact ⟨hmem, by simpa using hp⟩
  · intro hne
    cases h : Ability_List.find? (fun ab_def => ab_def.ability == a) with
    | none => simp [get_ability_def, h]
    | some e =>
      exact absurd ⟨e, List.mem_of_find?_eq_some h,
        by simpa using List.find?_some h⟩ hne

/-- C8 (witness): the stale identity `ABIL_UNKNOWN_A` is unregistered
and looks up to the sentinel first entry. -/
theorem C8_witness :
    get_ability_def .ABIL_UNKNOWN_A = Ability_List.headI :=
  (C8_theorem .ABIL_UNKNOWN_A).2.1 (by decide)

/-- C4: the failure percentage of any talent produced by `get_talent`
lies in `[0, 100]`, for every actor state (the hypothesis mirrors the
function's `ASSERT(ability != ABIL_NON_ABILITY)` precondition). -/
theorem C4_theorem (y : You) (a : ability_type) (cc : Bool)
    (h : a ≠ .ABIL_NON_ABILITY) :
    0 ≤ ((get_talent y a cc).1).fail ∧ ((get_talent y a cc).1).fail ≤ 100 := by
  dsimp only [get_talent]
  split
  · exact ⟨le_refl 0, by norm_num⟩
  · dsimp only
    split_ifs <;> constructor <;> omega

/-- C4 (witness): Spit Poison for the baseline actor has failure 39,
inside `[0, 100]`. -/
theorem C4_witness :
    0 ≤ ((get_talent baseYou .ABIL_SPIT_POISON false).1).fail ∧
    ((get_talent baseYou .ABIL_SPIT_POISON false).1).fail ≤ 100 :=
  C4_theorem baseYou .ABIL_SPIT_POISON false (by decide)

/-- C5: the redirect/placeholder mapping is idempotent in every actor
state — every value it returns is a fixed point of the mapping. -/
theorem C5_theorem (y : You) (a : ability_type) :
    fixup_ability y (fixup_ability y a) = fixup_ability y a := by
  cases a <;>
    first
      | rfl
      | (simp only [fixup_ability]; split_ifs <;> simp_all [fixup_ability])

/-- C1 (counterexample): a Spit Poison attempt whose effect dispatch
reports `SPRET_FAIL` (failed-but-attempted) leaves every resource pool
unchanged, although cost settlement at that state would charge hunger —
so costs are not settled for failed-but-attempted outcomes. -/
theorem C1_counterexample :
    attempt_outcome yFail talSpit = .SPRET_FAIL ∧
    (activate_talent yFail talSpit).map (fun r => (pools r.1, r.2))
      = some (pools yFail, false) ∧
    pools (pay_ability_costs yFail (get_ability_def talSpit.which))
      ≠ pools yFail := by
  refine ⟨rfl, rfl, by decide⟩

/-- C1 (amended): resource costs are settled exactly on the
`true`-returning (Succeeded) path of `activate_talent`; on every other
path — Aborted, every early abort, and also Failed-but-attempted — the
resource pools are unchanged. -/
theorem C1_theorem (y : You) (tal : talent) (y2 : You) (b : Bool)
    (h : activate_talent y tal = some (y2, b)) :
    (b = true → y2 = pay_ability_costs y (get_ability_def tal.which)) ∧
    (b = false → pools y2 = pools y) := by
  unfold activate_talent at h
  split at h
  · simp only [Option.some.injEq, Prod.mk.injEq] at h
    obtain ⟨h1, h2⟩ := h
    subst h1
    exact ⟨fun hb => absurd (h2.trans hb) (by simp), fun _ => rfl⟩
  · dsimp only at h
    split at h
    · simp only [Option.some.injEq, Prod.mk.injEq] at h
      obtain ⟨h1, h2⟩ := h
      subst h1
      exact ⟨fun _ => rfl, fun hb => absurd (h2.trans hb) (by simp)⟩
    · simp only [Option.some.injEq, Prod.mk.injEq] at h
      obtain ⟨h1, h2⟩ := h
      subst h1
      exact ⟨fun hb => absurd (h2.trans hb) (by simp), fun _ => rfl⟩
    · simp only [Option.some.injEq, Prod.mk.injEq] at h
      obtain ⟨h1, h2⟩ := h
      subst h1
      exact ⟨fun hb => absurd (h2.trans hb) (by simp), fun _ => rfl⟩
    · exact Option.noConfusion h

/-- C1 (witness): the amended theorem applied to the failed Spit Poison
attempt — the pools after the attempt equal the pools before. -/
theorem C1_witness :
    pools { yFail with turn_is_over := true } = pools yFail :=
  (C1_theorem yFail talSpit { yFail with turn_is_over := true } false rfl).2 rfl

/-- C2 (counterexample): the failed Spit Poison attempt consumes the
turn (`turn_is_over` is set), i.e. the outcome is Failed-but-attempted,
yet `activate_talent` returns `false`. -/
theorem C2_counterexample :
    attempt_outcome yFail talSpit = .SPRET_FAIL ∧
    activate_talent yFail talSpit
      = some ({ yFail with turn_is_over := true }, false) :=
  ⟨rfl, rfl⟩

/-- C2 (amended): `activate_talent` returns `true` exactly when the
attempt's outcome is Succeeded; Failed-but-attempted, like Aborted,
returns `false` (even though it consumes the turn). -/
theorem C2_theorem (y : You) (tal : talent) (y2 : You) (b : Bool)
    (h : activate_talent y tal = some (y2, b)) :
    b = true ↔ attempt_outcome y tal = .SPRET_SUCCESS := by
  unfold activate_talent at h
  unfold attempt_outcome
  split at h
  · rename_i hc
    rw [if_pos hc]
    simp only [Option.some.injEq, Prod.mk.injEq] at h
    simp [← h.2]
  · rename_i hc
    rw [if_neg hc]
    dsimp only at h
    split at h <;> rename_i heq
    · simp only [Option.some.injEq, Prod.mk.injEq] at h
      rw [heq]
      simp [← h.2]
    · simp only [Option.some.injEq, Prod.mk.injEq] at h
      rw [heq]
      simp [← h.2]
    · simp only [Option.some.injEq, Prod.mk.injEq] at h
      rw [heq]
      simp [← h.2]
    · exact Option.noConfusion h

/-- C2 (witness): a Succeeded baseline attempt returns `true`, so the
amended equivalence yields the Succeeded outcome. -/
theorem C2_witness : attempt_outcome baseYou talSpit = .SPRET_SUCCESS :=
  (C2_theorem baseYou talSpit
    (pay_ability_costs baseYou (get_ability_def talSpit.which)) true rfl).mp rfl

/-- C7 (failing input): with the slot table fully occupied by stale
entries and two slotless offered abilities, the free-hotkey loop gives
BOTH talents hotkey 51 — the conflict check compares letters
(`index_to_letter(k)`) while the assignment stores the raw index `k`,
so two distinct simultaneously offered actions share one non-empty
hotkey. -/
theorem C7_theorem :
    (your_talents yC7 false false).1.map (fun t => (t.which, t.hotkey))
      = [(.ABIL_MUMMY_RESTORATION, 51), (.ABIL_RECHARGING, 51)] ∧
    .ABIL_MUMMY_RESTORATION ≠ ability_type.ABIL_RECHARGING ∧ (51 : Int) ≠ 0 := by
  refine ⟨by decide, by decide, by decide⟩

theorem set_of_get?_eq {α : Type} :
    ∀ (l : List α) (n : Nat) (a : α), l.get? n = some a → l.set n a = l := by
  intro l
  induction l with
  | nil => intro n a h; simp at h
  | cons x xs ih =>
    intro n a h
    cases n with
    | zero => simp at h; simp [h]
    | succ n =>
      simp only [List.get?_cons_succ] at h
      simp [ih n a h]

theorem afi_snd_const (y1 y2 : You) (a : ability_type) :
    (ability_failure_invoc y1 a).2 = (ability_failure_invoc y2 a).2 := by
  cases a <;> rfl

theorem get_talent_invoc_false (y : You) (a : ability_type) (cc : Bool)
    (h : (ability_failure_invoc y a).2 = false) :
    ((get_talent y a cc).1).is_invocation = false := by
  dsimp only [get_talent]
  split
  · rfl
  · dsimp only
    exact (afi_snd_const _ y a).trans h

theorem get_talent_invoc_kept (y : You) (a : ability_type) (cc : Bool)
    (h : ((get_talent y a cc).1).which ≠ .ABIL_NON_ABILITY) :
    ((get_talent y a cc).1).is_invocation = (ability_failure_invoc y a).2 := by
  revert h
  dsimp only [get_talent]
  split
  · intro h
    exact absurd rfl h
  · intro _
    dsimp only
    exact afi_snd_const _ y a

theorem sameExceptTable_refl (y : You) : sameExceptTable y y := rfl

theorem sameExceptTable_update (y : You) (t : List ability_type) :
    sameExceptTable y { y with ability_letter_table := t } := rfl

theorem sameExceptTable_trans {y1 y2 y3 : You}
    (h1 : sameExceptTable y1 y2) (h2 : sameExceptTable y2 y3) :
    sameExceptTable y1 y3 := by
  unfold sameExceptTable at *
  rw [h1] at h2
  exact h2

theorem sameExceptTable_dra {y1 y2 : You} (h : sameExceptTable y1 y2) :
    y2.draconian_breath = y1.draconian_breath := by
  rw [h]

theorem auto_assign_chars_set (y : You) (slot : Nat) (abil : ability_type)
    (pm : String → Bool) :
    ∀ (chars : List Char) (ow : Bool) (k : Int) (y2 : You),
      (auto_assign_chars y slot abil pm chars ow).2 = some (k, y2) →
      sameExceptTable y y2 := by
  intro chars
  induction chars with
  | nil =>
    intro ow k y2 h2
    simp [auto_assign_chars] at h2
  | cons i rest ih =>
    intro ow k y2 h2
    simp only [auto_assign_chars] at h2
    split_ifs at h2 with c1 c2 c3 c4 c5 c6 c7
    · exact ih _ _ _ h2
    · exact ih _ _ _ h2
    · simp only [Option.some.injEq, Prod.mk.injEq] at h2
      rw [← h2.2]
      exact rfl
    · simp only [Option.some.injEq, Prod.mk.injEq] at h2
      rw [← h2.2]
      exact rfl
    · exact ih _ _ _ h2
    · simp only [Option.some.injEq, Prod.mk.injEq] at h2
      rw [← h2.2]
      exact rfl
    · exact ih _ _ _ h2
    · exact ih _ _ _ h2

theorem auto_assign_go_set (y : You) (slot : Nat) (abil : ability_type)
    (abilname : String) :
    ∀ (mappings : List auto_mapping) (ow : Bool),
      sameExceptTable y (auto_assign_go y slot abil abilname mappings ow).2 := by
  intro mappings
  induction mappings with
  | nil => intro ow; exact sameExceptTable_refl y
  | cons m rest ih =>
    intro ow
    simp only [auto_assign_go]
    split
    · exact ih _
    · split
      · rename_i r heq
        obtain ⟨k, y2⟩ := r
        exact auto_assign_chars_set y slot abil m.pattern_matches m.letters ow k y2
          (by rw [heq])
      · exact ih _

theorem auto_assign_ability_slot_set (y : You) (slot : Nat) :
    sameExceptTable y (auto_assign_ability_slot y slot).2 :=
  auto_assign_go_set y slot _ _ y.auto_ability_letters false

theorem find_ability_slot_scan_set (y : You) (abil : ability_type)
    (first_slot : Int) :
    sameExceptTable y (find_ability_slot_scan y abil first_slot).2 := by
  unfold find_ability_slot_scan
  split
  · exact sameExceptTable_trans (sameExceptTable_update y _)
      (auto_assign_ability_slot_set _ _)
  · split
    · exact sameExceptTable_trans (sameExceptTable_update y _)
        (auto_assign_ability_slot_set _ _)
    · exact sameExceptTable_refl y

theorem find_ability_slot_set (y : You) (abil : ability_type) (fl : Char) :
    sameExceptTable y (find_ability_slot y abil fl).2 := by
  unfold find_ability_slot
  dsimp only
  by_cases h : lookup_ability_slot y abil > -1
  · rw [if_pos h]
    exact sameExceptTable_refl y
  · rw [if_neg h]
    exact find_ability_slot_scan_set y abil _

theorem get_talent_set (y : You) (a : ability_type) (cc : Bool) :
    sameExceptTable y (get_talent y a cc).2 := by
  dsimp only [get_talent]
  split
  · exact sameExceptTable_refl y
  · dsimp only
    exact find_ability_slot_set y _ 'f'

theorem add_talent_append (vec : List talent) (y0 : You) (a : ability_type)
    (cc : Bool) :
    ∃ new, (add_talent vec y0 a cc).1 = vec ++ new ∧
      ∀ t ∈ new, t = (get_talent y0 a cc).1 ∧
        t.which ≠ .ABIL_NON_ABILITY := by
  unfold add_talent
  dsimp only
  split
  · rename_i hk
    refine ⟨[(get_talent y0 a cc).1], rfl, ?_⟩
    intro t ht
    rw [List.mem_singleton] at ht
    subst ht
    exact ⟨rfl, by simpa using hk⟩
  · exact ⟨[], by simp, by simp⟩

theorem cond_add_append (s : List talent × You) (c : Bool) (a : ability_type)
    (cc : Bool) :
    ∃ new, (cond_add s c a cc).1 = s.1 ++ new ∧
      ∀ t ∈ new, t = (get_talent s.2 a cc).1 ∧
        t.which ≠ .ABIL_NON_ABILITY := by
  unfold cond_add
  split
  · exact add_talent_append s.1 s.2 a cc
  · exact ⟨[], by simp, by simp⟩

theorem cond_add_set (y : You) (s : List talent × You) (c : Bool)
    (a : ability_type) (cc : Bool) (hy : sameExceptTable y s.2) :
    sameExceptTable y (cond_add s c a cc).2 := by
  unfold cond_add
  split
  · unfold add_talent
    exact sameExceptTable_trans hy (get_talent_set s.2 a cc)
  · exact hy

theorem foldl_append (cc : Bool) :
    ∀ (l : List ability_type) (s : List talent × You),
      ∃ new, (l.foldl (fun s abil => add_talent s.1 s.2 abil cc) s).1
          = s.1 ++ new ∧
        ∀ t ∈ new, ∃ y0 a, a ∈ l ∧ t = (get_talent y0 a cc).1 ∧
          t.which ≠ .ABIL_NON_ABILITY := by
  intro l
  induction l with
  | nil => intro s; exact ⟨[], by simp, by simp⟩
  | cons a rest ih =>
    intro s
    obtain ⟨n1, hn1, hp1⟩ := add_talent_append s.1 s.2 a cc
    obtain ⟨n2, hn2, hp2⟩ := ih (add_talent s.1 s.2 a cc)
    refine ⟨n1 ++ n2, ?_, ?_⟩
    · rw [List.foldl_cons, hn2, hn1, List.append_assoc]
    · intro t ht
      rcases List.mem_append.mp ht with h | h
      · obtain ⟨he, hk⟩ := hp1 t h
        exact ⟨s.2, a, List.mem_cons_self a rest, he, hk⟩
      · obtain ⟨y0, a0, ha0, he, hk⟩ := hp2 t h
        exact ⟨y0, a0, List.mem_cons_of_mem a ha0, he, hk⟩

theorem hotkey_pass_map (f : talent → Bool)
    (hf : ∀ t k, f { t with hotkey := k } = f t) :
    ∀ (fuel i : Nat) (s : List talent × You),
      ((hotkey_pass_from fuel i s).1).map f = (s.1).map f := by
  intro fuel
  induction fuel with
  | zero => intro i s; rfl
  | succ fuel ih =>
    intro i s
    obtain ⟨ts, y⟩ := s
    simp only [hotkey_pass_from]
    split
    · rfl
    · rename_i tal hget
      split
      · rw [ih, List.map_set, hf]
        exact set_of_get?_eq _ _ _ (by rw [List.get?_map, hget]; rfl)
      · split
        · rw [ih, List.map_set, hf]
          exact set_of_get?_eq _ _ _ (by rw [List.get?_map, hget]; rfl)
        · exact ih _ _

theorem part1_inv (y : You) (cc iu : Bool)
    (hdra : (ability_failure_invoc y y.draconian_breath).2 = false) :
    (∀ t ∈ (your_talents_part1 y cc iu).1, t.is_invocation = false) ∧
    sameExceptTable y (your_talents_part1 y cc iu).2 := by
  have step_const : ∀ (a : ability_type),
      (ability_failure_invoc y a).2 = false →
      ∀ (s : List talent × You),
        ((∀ t ∈ s.1, t.is_invocation = false) ∧ sameExceptTable y s.2) →
      ∀ (c : Bool),
        ((∀ t ∈ (cond_add s c a cc).1, t.is_invocation = false) ∧
          sameExceptTable y (cond_add s c a cc).2) := by
    intro a ha s hs c
    obtain ⟨hall, hy⟩ := hs
    obtain ⟨new, he, hn⟩ := cond_add_append s c a cc
    refine ⟨?_, cond_add_set y s c a cc hy⟩
    rw [he]
    intro t ht
    rcases List.mem_append.mp ht with h | h
    · exact hall t h
    · rw [(hn t h).1]
      exact get_talent_invoc_false s.2 a cc ((afi_snd_const s.2 y a).trans ha)
  have step_dra : ∀ (s : List talent × You),
      ((∀ t ∈ s.1, t.is_invocation = false) ∧ sameExceptTable y s.2) →
      ∀ (c : Bool),
        ((∀ t ∈ (cond_add s c (s.2.draconian_breath) cc).1,
            t.is_invocation = false) ∧
          sameExceptTable y (cond_add s c (s.2.draconian_breath) cc).2) := by
    intro s hs c
    refine step_const (s.2.draconian_breath) ?_ s hs c
    rw [sameExceptTable_dra hs.2]
    exact hdra
  dsimp only [your_talents_part1]
  exact step_const .ABIL_BLINK rfl _
    (step_const .ABIL_END_TRANSFORMATION rfl _
    (step_const .ABIL_HELLFIRE rfl _
    (step_const .ABIL_STOP_FLYING rfl _
    (step_const .ABIL_FLY rfl _
    (step_const .ABIL_TRAN_BAT rfl _
    (step_dra _
    (step_const .ABIL_SPIT_POISON rfl _
    (step_const .ABIL_BREATHE_POISON rfl _
    (step_const .ABIL_SHAFT_SELF rfl _
    (step_const .ABIL_DIG rfl _
    (step_const .ABIL_RECHARGING rfl _
    (step_const .ABIL_MUMMY_RESTORATION rfl _
      ⟨by simp, sameExceptTable_refl y⟩ _) _) _) _) _) _) _) _) _) _) _) _) _

theorem part2_append (y : You) (cc iu : Bool) (s : List talent × You)
    (hgod : ∀ a ∈ get_god_abilities s.2 iu false iu,
        (ability_failure_invoc y a).2 = true) :
    ∃ B, (your_talents_part2 cc iu s).1 = s.1 ++ B ∧
      ∀ t ∈ B, t.is_invocation = true := by
  set GA := get_god_abilities s.2 iu false iu with hGA
  set F := GA.foldl (fun s abil => add_talent s.1 s.2 abil cc) s with hF
  set G := cond_add F (!F.2.worship_no_god) .ABIL_RENOUNCE_RELIGION cc with hG
  have e : your_talents_part2 cc iu s
      = cond_add G (G.2.level_state_beogh && G.2.can_convert_to_beogh)
          .ABIL_CONVERT_TO_BEOGH cc := rfl
  rw [e]
  obtain ⟨B1, h1, hp1⟩ := foldl_append cc GA s
  obtain ⟨B2, h2, hp2⟩ :=
    cond_add_append F (!F.2.worship_no_god) .ABIL_RENOUNCE_RELIGION cc
  obtain ⟨B3, h3, hp3⟩ :=
    cond_add_append G (G.2.level_state_beogh && G.2.can_convert_to_beogh)
      .ABIL_CONVERT_TO_BEOGH cc
  refine ⟨B1 ++ B2 ++ B3, ?_, ?_⟩
  · rw [h3, hG]
    rw [h2, hF]
    rw [h1]
    simp [List.append_assoc]
  · intro t ht
    rcases List.mem_append.mp ht with ht1 | ht3
    · rcases List.mem_append.mp ht1 with ht1 | ht2
      · obtain ⟨y0, a, ha, he0, hk⟩ := hp1 t ht1
        rw [he0]
        rw [get_talent_invoc_kept y0 a cc (he0 ▸ hk)]
        exact (afi_snd_const y0 y a).trans (hgod a ha)
      · obtain ⟨he0, hk⟩ := hp2 t ht2
        rw [he0]
        rw [get_talent_invoc_kept F.2 _ cc (he0 ▸ hk)]
        rfl
    · obtain ⟨he0, hk⟩ := hp3 t ht3
      rw [he0]
      rw [get_talent_invoc_kept G.2 _ cc (he0 ▸ hk)]
      rfl

theorem part3_append (y : You) (cc iu : Bool) (s : List talent × You) :
    ∃ C, (your_talents_part3 cc iu s).1 = s.1 ++ C ∧
      ∀ t ∈ C, t.is_invocation = false := by
  have step : ∀ (a : ability_type),
      (∀ y0 : You, (ability_failure_invoc y0 a).2 = false) →
      ∀ (s2 : List talent × You),
        (∃ C, s2.1 = s.1 ++ C ∧ ∀ t ∈ C, t.is_invocation = false) →
      ∀ (c : Bool),
        ∃ C, (cond_add s2 c a cc).1 = s.1 ++ C ∧
          ∀ t ∈ C, t.is_invocation = false := by
    intro a ha s2 hs2 c
    obtain ⟨C, hC, hCp⟩ := hs2
    obtain ⟨new, he, hn⟩ := cond_add_append s2 c a cc
    refine ⟨C ++ new, by rw [he, hC, List.append_assoc], ?_⟩
    intro t ht
    rcases List.mem_append.mp ht with h | h
    · exact hCp t h
    · rw [(hn t h).1]
      exact get_talent_invoc_false s2.2 a cc (ha s2.2)
  dsimp only [your_talents_part3]
  exact step .ABIL_STOP_FLYING (fun _ => rfl) _
    (step .ABIL_EVOKE_FLIGHT (fun _ => rfl) _
    (step .ABIL_EVOKE_TURN_INVISIBLE (fun _ => rfl) _
    (step .ABIL_EVOKE_TURN_VISIBLE (fun _ => rfl) _
    (step .ABIL_EVOKE_BERSERK (fun _ => rfl) _
    (step .ABIL_EVOKE_FOG (fun _ => rfl) _
    (step .ABIL_EVOKE_BLINK (fun _ => rfl) _
    (step .ABIL_STOP_SINGING (fun _ => rfl) _
    (step .ABIL_DELAYED_FIREBALL (fun _ => rfl) _
    (step .ABIL_BREATHE_FIRE (fun _ => rfl) _
      ⟨[], by simp, by simp⟩ _) _) _) _) _) _) _) _) _) _

/-- C6 (counterexample): a worshipper holding a delayed fireball is
offered Renounce Religion (faith) before Delayed Fireball (non-faith),
so the offered sequence is not grouped non-faith-first. -/
theorem C6_counterexample :
    (your_talents yC6 false false).1.map (fun t => (t.which, t.is_invocation))
      = [(.ABIL_RENOUNCE_RELIGION, true), (.ABIL_DELAYED_FIREBALL, false)] ∧
    nonfaith_first (your_talents yC6 false false).1 = false := by
  refine ⟨by decide, by decide⟩

/-- C6 (amended): the offered sequence is grouped into at most three
runs — species/mutation/form non-faith actions first, then the faith
actions (god powers, renouncing, converting), then further NON-faith
actions (dragon-form breath, delayed fireball, stopping a song, item
evocations) — provided every configured god power resolves to an
invocation-class ability and the species breath ability is not
invocation-class. The spec's two-run grouping (all non-faith before all
faith) does not hold. -/
theorem C6_theorem (y : You) (cc iu : Bool)
    (hdra : (ability_failure_invoc y y.draconian_breath).2 = false)
    (hgod : ∀ a ∈ get_god_abilities (your_talents_part1 y cc iu).2 iu false iu,
        (ability_failure_invoc y a).2 = true) :
    ∃ p q r, (your_talents y cc iu).1.map (fun t => t.is_invocation)
      = List.replicate p false ++ List.replicate q true
          ++ List.replicate r false := by
  obtain ⟨hA, hyA⟩ := part1_inv y cc iu hdra
  obtain ⟨B, hB, hBp⟩ := part2_append y cc iu (your_talents_part1 y cc iu) hgod
  obtain ⟨C, hC, hCp⟩ := part3_append y cc iu
      (your_talents_part2 cc iu (your_talents_part1 y cc iu))
  have e : (your_talents y cc iu).1.map (fun t => t.is_invocation)
      = ((your_talents_part3 cc iu (your_talents_part2 cc iu
            (your_talents_part1 y cc iu))).1).map (fun t => t.is_invocation) :=
    hotkey_pass_map (fun t => t.is_invocation) (fun _ _ => rfl) _ 0 _
  refine ⟨((your_talents_part1 y cc iu).1.map (fun t => t.is_invocation)).length,
    (B.map (fun t => t.is_invocation)).length,
    (C.map (fun t => t.is_invocation)).length, ?_⟩
  rw [e, hC, hB]
  simp only [List.map_append, List.append_assoc]
  congr 1
  · exact List.eq_replicate_length.mpr (by
      intro b hb
      obtain ⟨t, ht, he2⟩ := List.mem_map.mp hb
      rw [← he2]
      exact hA t ht)
  congr 1
  · exact List.eq_replicate_length.mpr (by
      intro b hb
      obtain ⟨t, ht, he2⟩ := List.mem_map.mp hb
      rw [← he2]
      exact hBp t ht)
  · exact List.eq_replicate_length.mpr (by
      intro b hb
      obtain ⟨t, ht, he2⟩ := List.mem_map.mp hb
      rw [← he2]
      exact hCp t ht)

/-- C6 (witness): the amended grouping at the concrete worshipper state
(runs of lengths 0, 1, 1: Renounce Religion then Delayed Fireball). -/
theorem C6_witness :
    ∃ p q r, (your_talents yC6 false false).1.map (fun t => t.is_invocation)
      = List.replicate p false ++ List.replicate q true
          ++ List.replicate r false :=
  C6_theorem yC6 false false rfl (by decide)
